import Mathlib

/-!
Couchbase exporter: the index and search collectors

A shallow embedding of `pkg/collectors/index_collector.go` and
`pkg/collectors/search_collector.go`.

* A metric value (`float64` in the source) is only stored and copied by the
  collectors, never computed with, so the carrier of values is a type parameter
  `F` with a zero and a one (the two liveness values).
* The channel `ch` is the list of metrics received on it, oldest first.
* `prometheus.MustNewConstMetric` panics when the descriptor carries an error or
  when the number of label values differs from the number of variable labels of
  the descriptor. A collector body is embedded as the ordered list of its
  channel sends (`Send`), and `deliver` performs them one after the other,
  stopping at the first send whose metric cannot be constructed. The external
  calls of one cycle are answered by fixed results, so computing the sends first
  and performing them afterwards yields the channel contents of the interleaved
  source.
* `prometheus.NewDesc` records an error in the descriptor when the metric name
  or a label name is not valid, when a label name is reserved, or when two label
  names are equal (the name rules are those of `model.IsValidMetricName` and
  `model.LabelName.IsValid`); `MustNewConstMetric` panics on such a descriptor.
* A Go string is embedded as a string of Unicode scalar values: the strings the
  collectors handle come from the configuration and from decoded replies, which
  are valid UTF-8.
* The label manager is an interface declared outside the two source files; its
  method `GetLabelValues` is taken to return one value per label name, as the
  interface is specified.
* Each client call is made at most once per cycle; the client is the record of
  the results of these calls, and `Outcome.calls` records which calls were made.
* `range` over a Go map visits the entries in an unspecified order, possibly a
  different one for each loop. The breakdown returned by `IndexStats` is the list
  of its entries and `Collect` takes the visiting order of the loop run for the
  definition at position `i` as the parameter `rangeOrder i`.
* The mutex, the log lines and the clock are not part of the embedding; the
  elapsed time `time.Since(start).Seconds()` is the parameter `elapsed`.
-/

namespace CouchbaseExporter

/-! The Prometheus client library -/

/-- Error recorded in a descriptor by `prometheus.NewDesc`. -/
inductive DescError where
  | invalidMetricName
  | invalidLabelName (labelName : String)
  | duplicateLabelNames
deriving DecidableEq, Repr

/-- Descriptor `prometheus.Desc` of the client library: fully-qualified name, help
text, variable label names (the collectors pass no constant labels) and the error
found by `NewDesc`, if any. -/
structure Desc where
  fqName : String
  help : String
  variableLabels : List String
  err : Option DescError := none
deriving DecidableEq, Repr

/-- Library function `prometheus.BuildFQName`: the non-empty parts joined by an
underscore, and the empty string when the name is empty. -/
def BuildFQName (ns subsystem name : String) : String :=
  if name = "" then ""
  else if ns ≠ "" ∧ subsystem ≠ "" then ns ++ "_" ++ subsystem ++ "_" ++ name
  else if ns ≠ "" then ns ++ "_" ++ name
  else if subsystem ≠ "" then subsystem ++ "_" ++ name
  else name

/-- A letter or an underscore: what a label name may start with. -/
def isNameStart (b : Char) : Bool :=
  ('a' ≤ b && b ≤ 'z') || ('A' ≤ b && b ≤ 'Z') || b == '_'

/-- A digit. -/
def isDigit (b : Char) : Bool :=
  '0' ≤ b && b ≤ '9'

/-- Library function `model.IsValidMetricName`: a non-empty name of letters,
underscores and colons, with digits allowed after the first position. -/
def IsValidMetricName (n : String) : Bool :=
  match n.data with
  | [] => false
  | b :: rest =>
    (isNameStart b || b == ':') &&
      rest.all (fun b => isNameStart b || b == ':' || isDigit b)

/-- Library method `model.LabelName.IsValid`: a non-empty name of letters and
underscores, with digits allowed after the first position. -/
def LabelNameIsValid (ln : String) : Bool :=
  match ln.data with
  | [] => false
  | b :: rest => isNameStart b && rest.all (fun b => isNameStart b || isDigit b)

/-- Library function `strings.HasPrefix(l, "__")`, the test for the reserved label
names. -/
def hasReservedLabelPrefix (l : String) : Bool :=
  match l.data with
  | a :: b :: _ => a == '_' && b == '_'
  | _ => false

/-- Library function `checkLabelName`: a valid label name that is not reserved. -/
def checkLabelName (l : String) : Bool :=
  LabelNameIsValid l && !hasReservedLabelPrefix l

/-- Library function `prometheus.NewDesc` called with `nil` constant labels: it
checks the metric name, then each variable label name in order, then that the
label names are distinct, and records the first error in the descriptor. -/
def NewDesc (fqName help : String) (variableLabels : List String) : Desc :=
  { fqName := fqName
    help := help
    variableLabels := variableLabels
    err :=
      if !IsValidMetricName fqName then some DescError.invalidMetricName
      else
        match variableLabels.find? (fun l => !checkLabelName l) with
        | some l => some (DescError.invalidLabelName l)
        | none =>
          if variableLabels.Nodup then none else some DescError.duplicateLabelNames }

/-- A constant gauge metric as received on the channel (`prometheus.Metric`; the
value type is `GaugeValue` at every call site). -/
structure Metric (F : Type) where
  desc : Desc
  value : F
  labelValues : List String
deriving DecidableEq, Repr

/-- Library function `prometheus.MustNewConstMetric(desc, GaugeValue, value,
labelValues...)`: `none` stands for the panic raised when the descriptor carries
an error or when the number of label values is not the number of variable labels
of the descriptor. The library also requires each label value to be valid UTF-8;
the strings of the embedding are sequences of Unicode scalar values, so that
check passes on every label value. -/
def MustNewConstMetric {F : Type} (desc : Desc) (value : F) (labelValues : List String) :
    Option (Metric F) :=
  match desc.err with
  | some _ => none
  | none =>
    if labelValues.length = desc.variableLabels.length then
      some { desc := desc, value := value, labelValues := labelValues }
    else none

/-- One statement `ch <- prometheus.MustNewConstMetric(desc, GaugeValue, value,
labelValues...)` of a collector body. -/
structure Send (F : Type) where
  desc : Desc
  value : F
  labelValues : List String
deriving DecidableEq, Repr

/-- The metric constructed by a send whose label values fit its descriptor. -/
def Send.toMetric {F : Type} (s : Send F) : Metric F :=
  { desc := s.desc, value := s.value, labelValues := s.labelValues }

/-- Whether the metric of a send can be constructed: the descriptor carries no
error and the label values are as many as its variable labels. -/
def Send.fits {F : Type} (s : Send F) : Bool :=
  s.desc.err.isNone && s.labelValues.length == s.desc.variableLabels.length

/-- Channel contents after performing the sends in order, and whether all of them
were performed: a send whose metric cannot be constructed panics, and nothing
after it is performed. -/
def deliver {F : Type} : List (Send F) → List (Metric F) × Bool
  | [] => ([], true)
  | s :: rest =>
    match MustNewConstMetric s.desc s.value s.labelValues with
    | none => ([], false)
    | some m => (m :: (deliver rest).1, (deliver rest).2)

/-! Package objects and util (declarations outside the two source files) -/

/-- Modelled from the spec: the type `objects.MetricInfo`, a MetricDefinition
with a name, an enabled flag, an ordered set of label names and a help text. -/
structure MetricInfo where
  Name : String
  Enabled : Bool
  Labels : List String
  Help : String
deriving DecidableEq, Repr

/-- Modelled from the spec: the type `objects.CollectorConfig`, the namespace and
subsystem identifiers and the ordered list of metric definitions. -/
structure CollectorConfig where
  Namespace : String
  Subsystem : String
  Metrics : List MetricInfo
deriving DecidableEq, Repr

/-- Modelled from the spec: the method `MetricInfo.GetPrometheusDescription` of
package objects, the descriptor whose fully-qualified name is built from
(namespace, subsystem, name) and whose labels are the declared label names. -/
def MetricInfo.GetPrometheusDescription (m : MetricInfo) (ns subsystem : String) : Desc :=
  NewDesc (BuildFQName ns subsystem m.Name) m.Help m.Labels

/-- Constants and default configurations of package objects, which the collectors
reference by name; their values are parameters of the development. -/
structure Objects where
  ClusterLabel : String
  KeyspaceLabel : String
  IndexMetricPrefix : String
  DefaultUptimeMetric : String
  DefaultUptimeMetricHelp : String
  DefaultScrapeDurationMetric : String
  DefaultScrapeDurationMetricHelp : String
  GetIndexCollectorDefaultConfig : CollectorConfig
  GetSearchCollectorDefaultConfig : CollectorConfig

/-- Modelled from the spec: the helper `last` of package collectors, the last
element of a series, and zero for an empty (or absent, hence nil) series. -/
def last {F : Type} [Zero F] : List F → F
  | [] => 0
  | [x] => x
  | _ :: y :: rest => last (y :: rest)

/-- Modelled from the spec: the helper `contains` of package collectors, whether
the string occurs in the slice. -/
def contains : List String → String → Bool
  | [], _ => false
  | x :: rest, s => x == s || contains rest s

/-- Modelled from the spec: the type `util.MetricContext`, the resolved label
values of one scope, of which the collectors read the cluster name. -/
structure MetricContext where
  ClusterName : String
  Scope : List String
deriving DecidableEq, Repr

/-- Modelled from the spec: the interface `util.CbLabelManager`.
`GetBasicMetricContext` resolves the cluster-wide context or fails;
`GetMetricContext` returns a context together with an error value (which the
index collector discards); `GetLabelValues` returns one value per label name,
aligned to the order of the label names. -/
structure CbLabelManager where
  GetBasicMetricContext : Except String MetricContext
  GetMetricContext : String → String → MetricContext × Option String
  GetLabelValues : List String → MetricContext → List String
  GetLabelValues_aligned : ∀ labels ctx, (GetLabelValues labels ctx).length = labels.length

/-- Go map `map[string][]float64`; a key that is absent reads as the nil slice. -/
abbrev Samples (F : Type) := String → Option (List F)

/-- Read `samples[key]` of a Go map of slices. -/
def Samples.at {F : Type} (samples : Samples F) (key : String) : List F :=
  (samples key).getD []

/-- The part `Op` of a stats reply. -/
structure Op (F : Type) where
  Samples : Samples F

/-- Stats reply of `Index()` and `Fts()`: the collectors read `Op.Samples`. -/
structure Stats (F : Type) where
  Op : Op F

/-- Dynamic value `interface{}` found in the per-resource breakdown. -/
inductive Value (F : Type) where
  | float64 (v : F)
  | string (s : String)
  | bool (b : Bool)
  | null
deriving DecidableEq, Repr

/-- Go map `map[string]interface{}` of one resource: field name to value. -/
abbrev Fields (F : Type) := String → Option (Value F)

/-- Type assertion `values[name].(float64)`: the number when the field is present
and holds a float64, and `ok = false` otherwise. -/
def Fields.float64 {F : Type} (values : Fields F) (name : String) : Option F :=
  match values name with
  | some (Value.float64 v) => some v
  | _ => none

/-- Entries of the Go map `map[string]map[string]interface{}` returned by
`IndexStats()`. -/
abbrev Breakdown (F : Type) := List (String × Fields F)

/-- Node description returned by `GetCurrentNode()`. -/
structure Node where
  Services : List String
deriving DecidableEq, Repr

/-- Results of the client calls of one cycle (interface `util.CbClient`). A call
returns a value or an error; `ClusterName` returns a string next to its error
value, because the search collector reads the string in the error case too. -/
structure CbClient (F : Type) where
  Index : Except String (Stats F)
  GetCurrentNode : Except String Node
  IndexStats : Except String (Breakdown F)
  ClusterName : String × Option String
  Fts : Except String (Stats F)

/-- External calls whose error the collectors check. -/
inductive Call where
  | GetBasicMetricContext
  | Index
  | GetCurrentNode
  | IndexStats
  | ClusterName
  | Fts
deriving DecidableEq, Repr

/-- Whether a checked external call of the cycle returned without an error. -/
def Call.succeeded {F : Type} (lm : Option CbLabelManager) (client : CbClient F) : Call → Bool
  | .GetBasicMetricContext =>
    match lm with
    | some lm => lm.GetBasicMetricContext.isOk
    | none => false
  | .Index => client.Index.isOk
  | .GetCurrentNode => client.GetCurrentNode.isOk
  | .IndexStats => client.IndexStats.isOk
  | .ClusterName => client.ClusterName.2.isNone
  | .Fts => client.Fts.isOk

/-! Package collectors -/

/-- Struct `MetaCollector` (without its mutex); the label manager is absent in
the search collector. -/
structure MetaCollector (F : Type) where
  client : CbClient F
  up : Desc
  scrapeDuration : Desc
  labelManger : Option CbLabelManager

/-- Struct `indexCollector`. -/
structure indexCollector (F : Type) where
  m : MetaCollector F
  config : CollectorConfig

/-- Struct `ftsCollector`. -/
structure ftsCollector (F : Type) where
  m : MetaCollector F
  config : CollectorConfig

/-- What one invocation of `Collect` did: the checked external calls it made, the
metrics received on the channel, and whether it returned (`false`: it panicked
while constructing a metric). -/
structure Outcome (F : Type) where
  calls : List Call
  ch : List (Metric F)
  completed : Bool

/-- Perform the sends of a collector body after the given calls. -/
def Outcome.of {F : Type} (calls : List Call) (sends : List (Send F)) : Outcome F :=
  { calls := calls, ch := (deliver sends).1, completed := (deliver sends).2 }

/-- Constructor `NewIndexCollector`; a nil configuration selects the default. -/
def NewIndexCollector {F : Type} (o : Objects) (client : CbClient F)
    (config : Option CollectorConfig) (labelManager : CbLabelManager) : indexCollector F :=
  let config := config.getD o.GetIndexCollectorDefaultConfig
  { m :=
      { client := client
        up := NewDesc (BuildFQName config.Namespace config.Subsystem o.DefaultUptimeMetric)
          o.DefaultUptimeMetricHelp [o.ClusterLabel]
        scrapeDuration :=
          NewDesc (BuildFQName config.Namespace config.Subsystem o.DefaultScrapeDurationMetric)
            o.DefaultScrapeDurationMetricHelp [o.ClusterLabel]
        labelManger := some labelManager }
    config := config }

/-- Constructor `NewFTSCollector`; a nil configuration selects the default. -/
def NewFTSCollector {F : Type} (o : Objects) (client : CbClient F)
    (config : Option CollectorConfig) : ftsCollector F :=
  let config := config.getD o.GetSearchCollectorDefaultConfig
  { m :=
      { client := client
        up := NewDesc (BuildFQName config.Namespace config.Subsystem o.DefaultUptimeMetric)
          o.DefaultUptimeMetricHelp [o.ClusterLabel]
        scrapeDuration :=
          NewDesc (BuildFQName config.Namespace config.Subsystem o.DefaultScrapeDurationMetric)
            o.DefaultScrapeDurationMetricHelp [o.ClusterLabel]
        labelManger := none }
    config := config }

/-- Loop of `Describe` over `c.config.Metrics`: the descriptor of each
enabled definition, in order. -/
def describeMetrics (config : CollectorConfig) : List MetricInfo → List Desc
  | [] => []
  | value :: rest =>
    if !value.Enabled then describeMetrics config rest
    else value.GetPrometheusDescription config.Namespace config.Subsystem ::
      describeMetrics config rest

/-- Method `indexCollector.Describe`: the descriptors sent on the channel. -/
def indexCollector.Describe {F : Type} (c : indexCollector F) : List Desc :=
  c.m.up :: c.m.scrapeDuration :: describeMetrics c.config c.config.Metrics

/-- Method `ftsCollector.Describe`: the descriptors sent on the channel. -/
def ftsCollector.Describe {F : Type} (c : ftsCollector F) : List Desc :=
  c.m.up :: c.m.scrapeDuration :: describeMetrics c.config c.config.Metrics

/-- Send of the aggregate sample of a definition (both branches of the index
collector): last sample of the series `IndexMetricPrefix + value.Name`, labelled
through the label manager with the current value of the variable `ctx`. -/
def indexAggregate {F : Type} [Zero F] (o : Objects) (config : CollectorConfig)
    (lm : CbLabelManager) (indexStats : Stats F) (ctx : MetricContext) (value : MetricInfo) :
    Send F :=
  { desc := value.GetPrometheusDescription config.Namespace config.Subsystem
    value := last (indexStats.Op.Samples.at (o.IndexMetricPrefix ++ value.Name))
    labelValues := lm.GetLabelValues value.Labels ctx }

/-- Inner loop `for key, values := range stats` of the index collector for
one definition, over the entries in visiting order. It assigns the variable `ctx` of
the enclosing function at every entry, before the test on the key; the result is
the final value of `ctx` and the sends of the loop. -/
def indexFanOut {F : Type} (config : CollectorConfig) (lm : CbLabelManager)
    (value : MetricInfo) : MetricContext → Breakdown F → MetricContext × List (Send F)
  | ctx, [] => (ctx, [])
  | _, (key, values) :: rest =>
    let ctx := (lm.GetMetricContext "" key).1
    if key = "indexer" then indexFanOut config lm value ctx rest
    else
      match values.float64 value.Name with
      | none => indexFanOut config lm value ctx rest
      | some val =>
        ((indexFanOut config lm value ctx rest).1,
          { desc := value.GetPrometheusDescription config.Namespace config.Subsystem
            value := val
            labelValues := lm.GetLabelValues value.Labels ctx } ::
          (indexFanOut config lm value ctx rest).2)

/-- Loop over `c.config.Metrics` of the index collector when the service is
present, from position `i` on: the final value of `ctx` and, for each definition,
the block of sends made at its iteration. -/
def indexPresentLoop {F : Type} [Zero F] (o : Objects) (config : CollectorConfig)
    (lm : CbLabelManager) (indexStats : Stats F) (stats : Breakdown F)
    (rangeOrder : Nat → Breakdown F → Breakdown F) :
    Nat → MetricContext → List MetricInfo → MetricContext × List (List (Send F))
  | _, ctx, [] => (ctx, [])
  | i, ctx, value :: rest =>
    if value.Enabled && !contains value.Labels o.KeyspaceLabel then
      ((indexPresentLoop o config lm indexStats stats rangeOrder (i + 1) ctx rest).1,
        [indexAggregate o config lm indexStats ctx value] ::
        (indexPresentLoop o config lm indexStats stats rangeOrder (i + 1) ctx rest).2)
    else
      let inner := indexFanOut config lm value ctx (rangeOrder i stats)
      ((indexPresentLoop o config lm indexStats stats rangeOrder (i + 1) inner.1 rest).1,
        inner.2 ::
        (indexPresentLoop o config lm indexStats stats rangeOrder (i + 1) inner.1 rest).2)

/-- Loop over `c.config.Metrics` of the index collector when the service is
absent: for each definition, the block of sends made at its iteration. -/
def indexAbsentLoop {F : Type} [Zero F] (o : Objects) (config : CollectorConfig)
    (lm : CbLabelManager) (indexStats : Stats F) (ctx : MetricContext) :
    List MetricInfo → List (List (Send F))
  | [] => []
  | value :: rest =>
    if value.Enabled && !contains value.Labels o.KeyspaceLabel then
      [indexAggregate o config lm indexStats ctx value] ::
        indexAbsentLoop o config lm indexStats ctx rest
    else [] :: indexAbsentLoop o config lm indexStats ctx rest

/-- The two closing sends of a completed cycle: liveness 1 and the scrape
duration, both labelled with the given cluster name. -/
def closing {F : Type} [One F] (m : MetaCollector F) (elapsed : F) (clusterName : String) :
    List (Send F) :=
  [{ desc := m.up, value := 1, labelValues := [clusterName] },
   { desc := m.scrapeDuration, value := elapsed, labelValues := [clusterName] }]

/-- The send of a failed cycle: liveness 0 with the given label value. -/
def down {F : Type} [Zero F] (m : MetaCollector F) (label : String) : List (Send F) :=
  [{ desc := m.up, value := 0, labelValues := [label] }]

/-- Method `indexCollector.Collect`. A nil label manager makes the first call
panic. -/
def indexCollector.Collect {F : Type} [Zero F] [One F] (o : Objects) (c : indexCollector F)
    (elapsed : F) (rangeOrder : Nat → Breakdown F → Breakdown F) : Outcome F :=
  match c.m.labelManger with
  | none => { calls := [], ch := [], completed := false }
  | some lm =>
    match lm.GetBasicMetricContext with
    | .error _ => Outcome.of [Call.GetBasicMetricContext] (down c.m o.ClusterLabel)
    | .ok ctx =>
      match c.m.client.Index with
      | .error _ =>
        Outcome.of [Call.GetBasicMetricContext, Call.Index] (down c.m ctx.ClusterName)
      | .ok indexStats =>
        match c.m.client.GetCurrentNode with
        | .error _ =>
          Outcome.of [Call.GetBasicMetricContext, Call.Index, Call.GetCurrentNode]
            (down c.m ctx.ClusterName)
        | .ok currentNode =>
          if contains currentNode.Services "index" then
            match c.m.client.IndexStats with
            | .error _ =>
              Outcome.of
                [Call.GetBasicMetricContext, Call.Index, Call.GetCurrentNode, Call.IndexStats]
                (down c.m ctx.ClusterName)
            | .ok stats =>
              let loop := indexPresentLoop o c.config lm indexStats stats rangeOrder 0 ctx
                c.config.Metrics
              Outcome.of
                [Call.GetBasicMetricContext, Call.Index, Call.GetCurrentNode, Call.IndexStats]
                (loop.2.flatten ++ closing c.m elapsed loop.1.ClusterName)
          else
            Outcome.of [Call.GetBasicMetricContext, Call.Index, Call.GetCurrentNode]
              ((indexAbsentLoop o c.config lm indexStats ctx c.config.Metrics).flatten ++
                closing c.m elapsed ctx.ClusterName)

/-- Send of the sample of a definition in the search collector: last sample of
the series `c.config.Subsystem + "_" + value.Name`, with the cluster name as its
only label value. -/
def ftsAggregate {F : Type} [Zero F] (config : CollectorConfig) (ftsStats : Stats F)
    (clusterName : String) (value : MetricInfo) : Send F :=
  { desc := value.GetPrometheusDescription config.Namespace config.Subsystem
    value := last (ftsStats.Op.Samples.at (config.Subsystem ++ "_" ++ value.Name))
    labelValues := [clusterName] }

/-- Loop over `c.config.Metrics` of the search collector: for each definition,
the block of sends made at its iteration. -/
def ftsLoop {F : Type} [Zero F] (config : CollectorConfig) (ftsStats : Stats F)
    (clusterName : String) : List MetricInfo → List (List (Send F))
  | [] => []
  | value :: rest =>
    if value.Enabled then
      [ftsAggregate config ftsStats clusterName value] ::
        ftsLoop config ftsStats clusterName rest
    else [] :: ftsLoop config ftsStats clusterName rest

/-- Method `ftsCollector.Collect`. -/
def ftsCollector.Collect {F : Type} [Zero F] [One F] (c : ftsCollector F) (elapsed : F) :
    Outcome F :=
  let clusterName := c.m.client.ClusterName.1
  match c.m.client.ClusterName.2 with
  | some _ => Outcome.of [Call.ClusterName] (down c.m clusterName)
  | none =>
    match c.m.client.Fts with
    | .error _ => Outcome.of [Call.ClusterName, Call.Fts] (down c.m clusterName)
    | .ok ftsStats =>
      Outcome.of [Call.ClusterName, Call.Fts]
        ((ftsLoop c.config ftsStats clusterName c.config.Metrics).flatten ++
          closing c.m elapsed clusterName)

/-! Concrete inputs

Values are integers here; the strings are those of the default exporter setup. -/

/-- Constants as the exporter ships them, with empty default configurations. -/
def exampleObjects : Objects :=
  { ClusterLabel := "cluster"
    KeyspaceLabel := "keyspace"
    IndexMetricPrefix := "index_"
    DefaultUptimeMetric := "up"
    DefaultUptimeMetricHelp := "Couchbase cluster API is responding"
    DefaultScrapeDurationMetric := "scrape_duration_seconds"
    DefaultScrapeDurationMetricHelp := "Scrape duration in seconds"
    GetIndexCollectorDefaultConfig := { Namespace := "cb", Subsystem := "index", Metrics := [] }
    GetSearchCollectorDefaultConfig := { Namespace := "cb", Subsystem := "fts", Metrics := [] } }

/-- Label values of a context: the cluster name for the cluster label, the first
scope value for any other label. -/
def exampleLabelValues (labels : List String) (ctx : MetricContext) : List String :=
  labels.map (fun l => if l = "cluster" then ctx.ClusterName else ctx.Scope.headD "")

/-- A label manager of cluster `c1` that knows the keyspace `travel:idx` and
answers any other key with the zero context and an error. -/
def exampleLabels : CbLabelManager :=
  { GetBasicMetricContext := .ok { ClusterName := "c1", Scope := [] }
    GetMetricContext := fun _ key =>
      if key = "travel:idx" then ({ ClusterName := "c1", Scope := [key] }, none)
      else ({ ClusterName := "", Scope := [] }, some "unknown keyspace")
    GetLabelValues := exampleLabelValues
    GetLabelValues_aligned := by intro labels ctx; simp [exampleLabelValues] }

/-- A label manager whose cluster-wide context resolution fails. -/
def exampleLabelsDown : CbLabelManager :=
  { GetBasicMetricContext := .error "cluster unreachable"
    GetMetricContext := fun _ _ => ({ ClusterName := "", Scope := [] }, some "cluster unreachable")
    GetLabelValues := exampleLabelValues
    GetLabelValues_aligned := by intro labels ctx; simp [exampleLabelValues] }

/-- Primary series of the scenario of the specification. -/
def exampleStats : Stats Int :=
  { Op := { Samples := fun key => if key = "index_op_count" then some [1, 2, 5] else none } }

/-- Per-resource breakdown: the umbrella key `indexer`, one index with numeric
fields and a textual field, and one index unknown to the label manager. -/
def exampleBreakdown : Breakdown Int :=
  [("indexer", fun name =>
      if name = "num_docs" then some (Value.float64 9)
      else if name = "num_requests" then some (Value.float64 30) else none),
   ("travel:idx", fun name =>
      if name = "num_docs" then some (Value.float64 7)
      else if name = "num_requests" then some (Value.float64 12)
      else if name = "state" then some (Value.string "ready") else none),
   ("beer:idx", fun name => if name = "num_docs" then some (Value.float64 4) else none)]

/-- A client of a node that runs the index service; every call succeeds. -/
def exampleClient : CbClient Int :=
  { Index := .ok exampleStats
    GetCurrentNode := .ok { Services := ["kv", "index"] }
    IndexStats := .ok exampleBreakdown
    ClusterName := ("c1", none)
    Fts := .ok exampleStats }

/-- A client of a node that does not run the index service. -/
def exampleClientNoIndex : CbClient Int :=
  { exampleClient with GetCurrentNode := .ok { Services := ["kv", "fts"] } }

/-- A client whose per-resource fetch and whose search fetch fail. -/
def exampleClientStatsDown : CbClient Int :=
  { exampleClient with IndexStats := .error "timeout", Fts := .error "timeout" }

/-- A client whose cluster-name lookup fails. -/
def exampleClientNameDown : CbClient Int :=
  { exampleClient with ClusterName := ("", some "cluster unreachable") }

/-- An index configuration: an aggregate definition, a keyspace-scoped definition
and a disabled keyspace-scoped definition. -/
def exampleConfig : CollectorConfig :=
  { Namespace := "cb"
    Subsystem := "index"
    Metrics :=
      [{ Name := "op_count", Enabled := true, Labels := ["cluster"], Help := "operations" },
       { Name := "num_docs", Enabled := true, Labels := ["cluster", "keyspace"],
         Help := "documents" },
       { Name := "num_requests", Enabled := false, Labels := ["cluster", "keyspace"],
         Help := "requests" }] }

/-- An index configuration whose only definition is disabled. -/
def exampleConfigDisabled : CollectorConfig :=
  { Namespace := "cb"
    Subsystem := "index"
    Metrics :=
      [{ Name := "num_requests", Enabled := false, Labels := ["cluster", "keyspace"],
         Help := "requests" }] }

/-- An index configuration with a keyspace-scoped definition before an aggregate
one. -/
def exampleConfigKeyspaceFirst : CollectorConfig :=
  { Namespace := "cb"
    Subsystem := "index"
    Metrics :=
      [{ Name := "num_docs", Enabled := true, Labels := ["cluster", "keyspace"],
         Help := "documents" },
       { Name := "op_count", Enabled := true, Labels := ["cluster"], Help := "operations" }] }

/-- Series of a search reply. -/
def exampleFtsStats : Stats Int :=
  { Op := { Samples := fun key =>
      if key = "fts_doc_count" then some [3, 8]
      else if key = "fts_total_queries" then some [] else none } }

/-- A client whose calls succeed, with the search reply above. -/
def exampleFtsClient : CbClient Int :=
  { exampleClient with Fts := .ok exampleFtsStats }

/-- A search configuration in which every enabled definition declares the
cluster label alone; the series of the second definition is empty and the series
of the third is absent. -/
def exampleFtsConfig : CollectorConfig :=
  { Namespace := "cb"
    Subsystem := "fts"
    Metrics :=
      [{ Name := "doc_count", Enabled := true, Labels := ["cluster"], Help := "documents" },
       { Name := "total_queries", Enabled := true, Labels := ["cluster"], Help := "queries" },
       { Name := "num_pindexes", Enabled := true, Labels := ["cluster"], Help := "pindexes" },
       { Name := "batch_bytes", Enabled := false, Labels := ["cluster", "node"],
         Help := "batch bytes" }] }

/-- A search configuration whose second definition declares two labels. -/
def exampleFtsConfigTwoLabels : CollectorConfig :=
  { Namespace := "cb"
    Subsystem := "fts"
    Metrics :=
      [{ Name := "doc_count", Enabled := true, Labels := ["cluster"], Help := "documents" },
       { Name := "total_queries", Enabled := true, Labels := ["cluster", "node"],
         Help := "queries" }] }

/-- A search configuration whose only definition declares no label. -/
def exampleFtsConfigNoLabel : CollectorConfig :=
  { Namespace := "cb"
    Subsystem := "fts"
    Metrics := [{ Name := "doc_count", Enabled := true, Labels := [], Help := "documents" }] }

/-- An index configuration whose namespace holds a hyphen. -/
def exampleConfigHyphenNamespace : CollectorConfig :=
  { exampleConfig with Namespace := "cb-1" }

/-- A configuration without definitions whose namespace holds a hyphen. -/
def exampleConfigHyphenNoMetrics : CollectorConfig :=
  { Namespace := "cb-1", Subsystem := "stats", Metrics := [] }

/-- An index configuration whose namespace holds a dot. -/
def exampleConfigDottedNamespace : CollectorConfig :=
  { exampleConfig with Namespace := "couchbase.io" }

/-- An index configuration whose only definition declares the cluster label
twice. -/
def exampleConfigDuplicateLabel : CollectorConfig :=
  { Namespace := "cb"
    Subsystem := "index"
    Metrics :=
      [{ Name := "op_count", Enabled := true, Labels := ["cluster", "cluster"],
         Help := "operations" }] }

/-- An index configuration with a definition of empty name before a
keyspace-scoped definition. -/
def exampleConfigUnnamedFirst : CollectorConfig :=
  { Namespace := "cb"
    Subsystem := "index"
    Metrics :=
      [{ Name := "", Enabled := true, Labels := ["cluster"], Help := "unnamed" },
       { Name := "num_docs", Enabled := true, Labels := ["cluster", "keyspace"],
         Help := "documents" }] }

/-- A search configuration whose only definition declares one label, with a
reserved name. -/
def exampleFtsConfigReservedLabel : CollectorConfig :=
  { Namespace := "cb"
    Subsystem := "fts"
    Metrics :=
      [{ Name := "doc_count", Enabled := true, Labels := ["__name__"], Help := "documents" }] }

/-- A search configuration whose only definition declares one label and has an
empty name. -/
def exampleFtsConfigUnnamed : CollectorConfig :=
  { Namespace := "cb"
    Subsystem := "fts"
    Metrics := [{ Name := "", Enabled := true, Labels := ["cluster"], Help := "unnamed" }] }

/-- A search configuration with a definition that has the name, the label and
the help text of the liveness metric. -/
def exampleFtsConfigUp : CollectorConfig :=
  { Namespace := "cb"
    Subsystem := "fts"
    Metrics :=
      [{ Name := "up", Enabled := true, Labels := ["cluster"],
         Help := "Couchbase cluster API is responding" }] }

/-! Facts about the library model -/

theorem MustNewConstMetric_eq {F : Type} (s : Send F) :
    MustNewConstMetric s.desc s.value s.labelValues =
      if s.fits = true then some s.toMetric else none := by
  unfold MustNewConstMetric Send.fits Send.toMetric
  cases herr : s.desc.err with
  | some e => simp
  | none =>
    by_cases hlen : s.labelValues.length = s.desc.variableLabels.length <;> simp [hlen]

theorem deliver_eq {F : Type} (sends : List (Send F)) :
    deliver sends = ((sends.takeWhile Send.fits).map Send.toMetric, sends.all Send.fits) := by
  induction sends with
  | nil => rfl
  | cons s rest ih =>
    cases hs : s.fits
    · simp [deliver, MustNewConstMetric_eq, hs, List.takeWhile]
    · simp [deliver, MustNewConstMetric_eq, hs, List.takeWhile, ih]

theorem deliver_of_fits {F : Type} (sends : List (Send F))
    (h : ∀ s ∈ sends, s.fits = true) :
    deliver sends = (sends.map Send.toMetric, true) := by
  rw [deliver_eq]
  have hall : sends.all Send.fits = true := List.all_eq_true.mpr h
  have htake : sends.takeWhile Send.fits = sends := by
    apply List.takeWhile_eq_self_iff.mpr
    exact h
  rw [hall, htake]

theorem deliver_append_of_fits {F : Type} (sends rest : List (Send F))
    (h : ∀ s ∈ sends, s.fits = true) :
    deliver (sends ++ rest) =
      (sends.map Send.toMetric ++ (deliver rest).1, (deliver rest).2) := by
  induction sends with
  | nil => simp
  | cons s tail ih =>
    have hs := h s (List.mem_cons_self s tail)
    have htail := ih (fun t ht => h t (List.mem_cons_of_mem s ht))
    simp [deliver, MustNewConstMetric_eq, hs, htail]

theorem takeWhile_append_of_all {α : Type} (p : α → Bool) (l rest : List α)
    (hrest : ∀ a ∈ rest, p a = true) :
    (l ++ rest).takeWhile p = l.takeWhile p ++ (if l.all p = true then rest else []) := by
  induction l with
  | nil =>
    simp only [List.nil_append, List.takeWhile_nil, List.all_nil, if_true]
    exact List.takeWhile_eq_self_iff.mpr hrest
  | cons a tail ih =>
    cases ha : p a
    · simp [List.takeWhile, ha]
    · simp [List.takeWhile, ha, ih]

theorem takeWhile_map {α β : Type} (p : β → Bool) (f : α → β) (l : List α) :
    (l.map f).takeWhile p = (l.takeWhile (fun a => p (f a))).map f := by
  induction l with
  | nil => rfl
  | cons a tail ih =>
    cases ha : p (f a) <;> simp [List.takeWhile, ha, ih]

theorem all_map_eq {α β : Type} (p : β → Bool) (f : α → β) (l : List α) :
    (l.map f).all p = l.all (fun a => p (f a)) := by
  induction l with
  | nil => rfl
  | cons a tail ih => simp [ih]

theorem describeMetrics_eq (config : CollectorConfig) (metrics : List MetricInfo) :
    describeMetrics config metrics =
      (metrics.filter (fun d => d.Enabled)).map
        (fun d => d.GetPrometheusDescription config.Namespace config.Subsystem) := by
  induction metrics with
  | nil => rfl
  | cons value rest ih =>
    cases hv : value.Enabled <;> simp [describeMetrics, hv, ih]

theorem GetPrometheusDescription_variableLabels (d : MetricInfo) (ns subsystem : String) :
    (d.GetPrometheusDescription ns subsystem).variableLabels = d.Labels := rfl

/-! Facts about the loops -/

theorem filter_map_eq_flatMap {α β : Type} (p : α → Bool) (f : α → β) (l : List α) :
    (l.filter p).map f = l.flatMap (fun d => if p d = true then [f d] else []) := by
  induction l with
  | nil => rfl
  | cons a rest ih =>
    cases hp : p a <;> simp [List.flatMap_cons, hp, ih]

theorem indexAbsentLoop_flatten {F : Type} [Zero F] (o : Objects) (config : CollectorConfig)
    (lm : CbLabelManager) (indexStats : Stats F) (ctx : MetricContext)
    (metrics : List MetricInfo) :
    (indexAbsentLoop o config lm indexStats ctx metrics).flatten =
      (metrics.filter (fun d => d.Enabled && !contains d.Labels o.KeyspaceLabel)).map
        (indexAggregate o config lm indexStats ctx) := by
  induction metrics with
  | nil => rfl
  | cons value rest ih =>
    cases hv : (value.Enabled && !contains value.Labels o.KeyspaceLabel) <;>
      simp [indexAbsentLoop, hv, ih]

theorem ftsLoop_flatten {F : Type} [Zero F] (config : CollectorConfig) (ftsStats : Stats F)
    (clusterName : String) (metrics : List MetricInfo) :
    (ftsLoop config ftsStats clusterName metrics).flatten =
      (metrics.filter (fun d => d.Enabled)).map (ftsAggregate config ftsStats clusterName) := by
  induction metrics with
  | nil => rfl
  | cons value rest ih =>
    cases hv : value.Enabled <;> simp [ftsLoop, hv, ih]

theorem indexFanOut_desc {F : Type} (config : CollectorConfig) (lm : CbLabelManager)
    (value : MetricInfo) (entries : Breakdown F) (ctx : MetricContext) :
    ∀ s ∈ (indexFanOut config lm value ctx entries).2,
      s.desc = value.GetPrometheusDescription config.Namespace config.Subsystem := by
  induction entries generalizing ctx with
  | nil => intro s hs; simp [indexFanOut] at hs
  | cons entry rest ih =>
    obtain ⟨key, values⟩ := entry
    intro s hs
    by_cases hkey : key = "indexer"
    · simp only [indexFanOut, hkey, if_true] at hs
      exact ih _ s hs
    · cases hval : values.float64 value.Name with
      | none =>
        simp only [indexFanOut, hkey, if_false, hval] at hs
        exact ih _ s hs
      | some val =>
        simp only [indexFanOut, hkey, if_false, hval, List.mem_cons] at hs
        rcases hs with rfl | hs
        · rfl
        · exact ih _ s hs

theorem indexPresentLoop_desc {F : Type} [Zero F] (o : Objects) (config : CollectorConfig)
    (lm : CbLabelManager) (indexStats : Stats F) (stats : Breakdown F)
    (rangeOrder : Nat → Breakdown F → Breakdown F) (metrics : List MetricInfo) (i : Nat)
    (ctx : MetricContext) :
    ∀ s ∈ (indexPresentLoop o config lm indexStats stats rangeOrder i ctx metrics).2.flatten,
      ∃ d ∈ metrics, s.desc = d.GetPrometheusDescription config.Namespace config.Subsystem := by
  induction metrics generalizing i ctx with
  | nil => intro s hs; simp [indexPresentLoop] at hs
  | cons value rest ih =>
    intro s hs
    cases hv : (value.Enabled && !contains value.Labels o.KeyspaceLabel)
    · simp only [indexPresentLoop, hv, Bool.false_eq_true, if_false, List.flatten_cons,
        List.mem_append] at hs
      rcases hs with hs | hs
      · exact ⟨value, List.mem_cons_self _ _, indexFanOut_desc config lm value _ _ s hs⟩
      · obtain ⟨d, hd, hdesc⟩ := ih _ _ s hs
        exact ⟨d, List.mem_cons_of_mem _ hd, hdesc⟩
    · simp only [indexPresentLoop, hv, if_true, List.flatten_cons, List.mem_append,
        List.mem_singleton] at hs
      rcases hs with rfl | hs
      · exact ⟨value, List.mem_cons_self _ _, rfl⟩
      · obtain ⟨d, hd, hdesc⟩ := ih _ _ s hs
        exact ⟨d, List.mem_cons_of_mem _ hd, hdesc⟩

theorem indexFanOut_sends {F : Type} (config : CollectorConfig) (lm : CbLabelManager)
    (value : MetricInfo) (entries : Breakdown F) (ctx : MetricContext) :
    (indexFanOut config lm value ctx entries).2 =
      entries.filterMap (fun entry =>
        if entry.1 = "indexer" then none
        else (entry.2.float64 value.Name).map (fun val =>
          ({ desc := value.GetPrometheusDescription config.Namespace config.Subsystem
             value := val
             labelValues := lm.GetLabelValues value.Labels (lm.GetMetricContext "" entry.1).1 } :
            Send F))) := by
  induction entries generalizing ctx with
  | nil => rfl
  | cons entry rest ih =>
    obtain ⟨key, values⟩ := entry
    by_cases hkey : key = "indexer"
    · simp [indexFanOut, hkey, ih]
    · cases hval : values.float64 value.Name with
      | none => simp [indexFanOut, hkey, hval, ih]
      | some val => simp [indexFanOut, hkey, hval, ih]

theorem indexPresentLoop_block {F : Type} [Zero F] (o : Objects) (config : CollectorConfig)
    (lm : CbLabelManager) (indexStats : Stats F) (stats : Breakdown F)
    (rangeOrder : Nat → Breakdown F → Breakdown F) (metrics : List MetricInfo) (i : Nat)
    (ctx : MetricContext) (j : Nat) (d : MetricInfo) (hd : metrics[j]? = some d)
    (helse : (d.Enabled && !contains d.Labels o.KeyspaceLabel) = false) :
    (indexPresentLoop o config lm indexStats stats rangeOrder i ctx metrics).2[j]? =
      some ((rangeOrder (i + j) stats).filterMap (fun entry =>
        if entry.1 = "indexer" then none
        else (entry.2.float64 d.Name).map (fun val =>
          ({ desc := d.GetPrometheusDescription config.Namespace config.Subsystem
             value := val
             labelValues := lm.GetLabelValues d.Labels (lm.GetMetricContext "" entry.1).1 } :
            Send F)))) := by
  induction metrics generalizing i ctx j with
  | nil => simp at hd
  | cons value rest ih =>
    cases j with
    | zero =>
      simp only [List.getElem?_cons_zero, Option.some.injEq] at hd
      subst hd
      simp [indexPresentLoop, helse, indexFanOut_sends]
    | succ j =>
      simp only [List.getElem?_cons_succ] at hd
      have hnext := fun ctx2 => ih (i + 1) ctx2 j hd
      have hidx : i + 1 + j = i + (j + 1) := by omega
      cases hv : (value.Enabled && !contains value.Labels o.KeyspaceLabel)
      · simp only [indexPresentLoop, hv, Bool.false_eq_true, if_false, List.getElem?_cons_succ]
        rw [hnext, hidx]
      · simp only [indexPresentLoop, hv, if_true, List.getElem?_cons_succ]
        rw [hnext, hidx]

theorem indexAggregate_fits {F : Type} [Zero F] (o : Objects) (config : CollectorConfig)
    (lm : CbLabelManager) (indexStats : Stats F) (ctx : MetricContext) (value : MetricInfo)
    (hvalid : (value.GetPrometheusDescription config.Namespace config.Subsystem).err = none) :
    (indexAggregate o config lm indexStats ctx value).fits = true := by
  simp [Send.fits, indexAggregate, hvalid, GetPrometheusDescription_variableLabels,
    lm.GetLabelValues_aligned]

theorem ftsAggregate_fits {F : Type} [Zero F] (config : CollectorConfig) (ftsStats : Stats F)
    (clusterName : String) (value : MetricInfo) :
    (ftsAggregate config ftsStats clusterName value).fits =
      ((value.GetPrometheusDescription config.Namespace config.Subsystem).err.isNone &&
        value.Labels.length == 1) := by
  simp only [Send.fits, ftsAggregate, GetPrometheusDescription_variableLabels,
    List.length_singleton]
  congr 1
  by_cases h : value.Labels.length = 1
  · simp [h]
  · have h2 : ¬ (1 = value.Labels.length) := fun e => h e.symm
    simp [h, h2]

theorem indexFanOut_fits {F : Type} (config : CollectorConfig) (lm : CbLabelManager)
    (value : MetricInfo) (entries : Breakdown F) (ctx : MetricContext)
    (hvalid : (value.GetPrometheusDescription config.Namespace config.Subsystem).err = none) :
    ∀ s ∈ (indexFanOut config lm value ctx entries).2, s.fits = true := by
  intro s hs
  rw [indexFanOut_sends] at hs
  obtain ⟨entry, _, hentry⟩ := List.mem_filterMap.mp hs
  by_cases hkey : entry.1 = "indexer"
  · simp [hkey] at hentry
  · cases hval : entry.2.float64 value.Name with
    | none => simp [hkey, hval] at hentry
    | some val =>
      simp only [hkey, if_false, hval, Option.map_some', Option.some.injEq] at hentry
      subst hentry
      simp [Send.fits, hvalid, GetPrometheusDescription_variableLabels,
        lm.GetLabelValues_aligned]

theorem indexPresentLoop_fits {F : Type} [Zero F] (o : Objects) (config : CollectorConfig)
    (lm : CbLabelManager) (indexStats : Stats F) (stats : Breakdown F)
    (rangeOrder : Nat → Breakdown F → Breakdown F) (metrics : List MetricInfo) (i : Nat)
    (ctx : MetricContext)
    (hvalid : ∀ d ∈ metrics,
      (d.GetPrometheusDescription config.Namespace config.Subsystem).err = none) :
    ∀ s ∈ (indexPresentLoop o config lm indexStats stats rangeOrder i ctx metrics).2.flatten,
      s.fits = true := by
  induction metrics generalizing i ctx with
  | nil => intro s hs; simp [indexPresentLoop] at hs
  | cons value rest ih =>
    have hrest : ∀ d ∈ rest,
        (d.GetPrometheusDescription config.Namespace config.Subsystem).err = none :=
      fun d hd => hvalid d (List.mem_cons_of_mem _ hd)
    have hvalue := hvalid value (List.mem_cons_self _ _)
    intro s hs
    cases hv : (value.Enabled && !contains value.Labels o.KeyspaceLabel)
    · simp only [indexPresentLoop, hv, Bool.false_eq_true, if_false, List.flatten_cons,
        List.mem_append] at hs
      rcases hs with hs | hs
      · exact indexFanOut_fits config lm value _ _ hvalue s hs
      · exact ih _ _ hrest s hs
    · simp only [indexPresentLoop, hv, if_true, List.flatten_cons, List.mem_append,
        List.mem_singleton] at hs
      rcases hs with rfl | hs
      · exact indexAggregate_fits o config lm indexStats ctx value hvalue
      · exact ih _ _ hrest s hs

theorem closing_fits {F : Type} [One F] (m : MetaCollector F) (elapsed : F)
    (clusterName : String) (hup : m.up.err = none) (hupLabels : m.up.variableLabels.length = 1)
    (hduration : m.scrapeDuration.err = none)
    (hdurationLabels : m.scrapeDuration.variableLabels.length = 1) :
    ∀ s ∈ closing m elapsed clusterName, s.fits = true := by
  intro s hs
  simp only [closing, List.mem_cons, List.mem_singleton, List.not_mem_nil, or_false] at hs
  rcases hs with rfl | rfl <;> simp [Send.fits, hup, hupLabels, hduration, hdurationLabels]

/-- A cycle whose descriptors are valid and whose definition sends all fit
delivers every send and returns. -/
theorem Outcome.of_closing {F : Type} [One F] (calls : List Call) (sends : List (Send F))
    (m : MetaCollector F) (elapsed : F) (clusterName : String)
    (hsends : ∀ s ∈ sends, s.fits = true)
    (hup : m.up.err = none) (hupLabels : m.up.variableLabels.length = 1)
    (hduration : m.scrapeDuration.err = none)
    (hdurationLabels : m.scrapeDuration.variableLabels.length = 1) :
    (Outcome.of calls (sends ++ closing m elapsed clusterName)).ch =
        sends.map Send.toMetric ++
          [{ desc := m.up, value := 1, labelValues := [clusterName] },
           { desc := m.scrapeDuration, value := elapsed, labelValues := [clusterName] }] ∧
      (Outcome.of calls (sends ++ closing m elapsed clusterName)).completed = true := by
  have hall : ∀ s ∈ sends ++ closing m elapsed clusterName, s.fits = true := by
    intro s hs
    rcases List.mem_append.mp hs with h | h
    · exact hsends s h
    · exact closing_fits m elapsed clusterName hup hupLabels hduration hdurationLabels s h
  simp only [Outcome.of, deliver_of_fits _ hall]
  simp [closing, Send.toMetric]

theorem Outcome.of_down {F : Type} [Zero F] (calls : List Call) (m : MetaCollector F)
    (label : String) (hup : m.up.err = none) (hupLabels : m.up.variableLabels.length = 1) :
    (Outcome.of calls (down m label)).ch =
        [{ desc := m.up, value := 0, labelValues := [label] }] ∧
      (Outcome.of calls (down m label)).completed = true ∧
      (Outcome.of calls (down m label)).calls = calls := by
  simp [Outcome.of, down, deliver, MustNewConstMetric, hup, hupLabels]

/-! Describe -/

/-- C10. Describe, in the index and in the search collector: the descriptors sent
are the liveness descriptor, the scrape-duration descriptor and then the
descriptor of each enabled definition in configuration order; there are two plus
the number of enabled definitions of them, each descriptor after the first two is
that of an enabled definition, and the sequence is the same for any other client
and label manager (it is computed from the configuration alone). -/
theorem describe_sequence {F : Type} (o : Objects) (client client2 : CbClient F)
    (config : Option CollectorConfig) (lm lm2 : CbLabelManager) :
    ((NewIndexCollector o client config lm).Describe =
        (NewIndexCollector o client config lm).m.up ::
        (NewIndexCollector o client config lm).m.scrapeDuration ::
        (((NewIndexCollector o client config lm).config.Metrics.filter (fun d => d.Enabled)).map
          (fun d => d.GetPrometheusDescription
            (NewIndexCollector o client config lm).config.Namespace
            (NewIndexCollector o client config lm).config.Subsystem)) ∧
      (NewIndexCollector o client config lm).Describe.length =
        2 + (NewIndexCollector o client config lm).config.Metrics.countP (fun d => d.Enabled) ∧
      (∀ desc ∈ (NewIndexCollector o client config lm).Describe.drop 2,
        ∃ d ∈ (NewIndexCollector o client config lm).config.Metrics, d.Enabled = true ∧
          desc = d.GetPrometheusDescription
            (NewIndexCollector o client config lm).config.Namespace
            (NewIndexCollector o client config lm).config.Subsystem) ∧
      (NewIndexCollector o client2 config lm2).Describe =
        (NewIndexCollector o client config lm).Describe) ∧
    ((NewFTSCollector o client config).Describe =
        (NewFTSCollector o client config).m.up ::
        (NewFTSCollector o client config).m.scrapeDuration ::
        (((NewFTSCollector o client config).config.Metrics.filter (fun d => d.Enabled)).map
          (fun d => d.GetPrometheusDescription
            (NewFTSCollector o client config).config.Namespace
            (NewFTSCollector o client config).config.Subsystem)) ∧
      (NewFTSCollector o client config).Describe.length =
        2 + (NewFTSCollector o client config).config.Metrics.countP (fun d => d.Enabled) ∧
      (∀ desc ∈ (NewFTSCollector o client config).Describe.drop 2,
        ∃ d ∈ (NewFTSCollector o client config).config.Metrics, d.Enabled = true ∧
          desc = d.GetPrometheusDescription
            (NewFTSCollector o client config).config.Namespace
            (NewFTSCollector o client config).config.Subsystem) ∧
      (NewFTSCollector o client2 config).Describe =
        (NewFTSCollector o client config).Describe) := by
  refine ⟨⟨?_, ?_, ?_, rfl⟩, ⟨?_, ?_, ?_, rfl⟩⟩
  · simp [indexCollector.Describe, describeMetrics_eq]
  · simp only [indexCollector.Describe, describeMetrics_eq, List.countP_eq_length_filter,
      List.length_cons, List.length_map]
    omega
  · intro desc hdesc
    simp only [indexCollector.Describe, describeMetrics_eq, List.drop_succ_cons, List.drop_zero,
      List.mem_map, List.mem_filter] at hdesc
    obtain ⟨d, ⟨hd, hen⟩, rfl⟩ := hdesc
    exact ⟨d, hd, hen, rfl⟩
  · simp [ftsCollector.Describe, describeMetrics_eq]
  · simp only [ftsCollector.Describe, describeMetrics_eq, List.countP_eq_length_filter,
      List.length_cons, List.length_map]
    omega
  · intro desc hdesc
    simp only [ftsCollector.Describe, describeMetrics_eq, List.drop_succ_cons, List.drop_zero,
      List.mem_map, List.mem_filter] at hdesc
    obtain ⟨d, ⟨hd, hen⟩, rfl⟩ := hdesc
    exact ⟨d, hd, hen, rfl⟩

/-! Failed cycles -/

/-- C5 fails as stated: with a namespace that holds a dot the name of the
liveness metric is not a valid metric name, its descriptor carries an error, and
when GetBasicMetricContext fails the construction of the liveness metric panics:
the channel receives nothing. -/
theorem collect_context_failure_panics_on_invalid_liveness_name :
    exampleLabelsDown.GetBasicMetricContext = .error "cluster unreachable" ∧
      (NewIndexCollector exampleObjects exampleClient (some exampleConfigDottedNamespace)
          exampleLabelsDown).m.up =
        { fqName := "couchbase.io_index_up", help := "Couchbase cluster API is responding",
          variableLabels := ["cluster"], err := some DescError.invalidMetricName } ∧
      ((NewIndexCollector exampleObjects exampleClient (some exampleConfigDottedNamespace)
          exampleLabelsDown).Collect exampleObjects 3 (fun _ s => s)).ch = [] ∧
      ((NewIndexCollector exampleObjects exampleClient (some exampleConfigDottedNamespace)
          exampleLabelsDown).Collect exampleObjects 3 (fun _ s => s)).completed = false :=
  ⟨rfl, by decide, by decide, by decide⟩

/-- C5, amended. When the cluster-wide context resolution fails
(GetBasicMetricContext in the index collector, ClusterName in the search
collector) and the liveness descriptor of the collector is valid, Collect makes
no further call (no stats fetch), and the channel receives exactly one metric:
the liveness metric with value 0; no definition sample and no duration sample.
Its label value is the constant ClusterLabel in the index collector and the
string returned next to the error in the search collector. -/
theorem collect_context_failure {F : Type} [Zero F] [One F] (o : Objects)
    (client sclient : CbClient F) (config sconfig : Option CollectorConfig)
    (lm : CbLabelManager) (elapsed : F) (rangeOrder : Nat → Breakdown F → Breakdown F) :
    (∀ e, lm.GetBasicMetricContext = .error e →
      (NewIndexCollector o client config lm).m.up.err = none →
      ((NewIndexCollector o client config lm).Collect o elapsed rangeOrder).calls =
          [Call.GetBasicMetricContext] ∧
        ((NewIndexCollector o client config lm).Collect o elapsed rangeOrder).ch =
          [{ desc := (NewIndexCollector o client config lm).m.up, value := 0,
             labelValues := [o.ClusterLabel] }] ∧
        ((NewIndexCollector o client config lm).Collect o elapsed rangeOrder).completed = true) ∧
    (∀ e, sclient.ClusterName.2 = some e →
      (NewFTSCollector o sclient sconfig).m.up.err = none →
      ((NewFTSCollector o sclient sconfig).Collect elapsed).calls = [Call.ClusterName] ∧
        ((NewFTSCollector o sclient sconfig).Collect elapsed).ch =
          [{ desc := (NewFTSCollector o sclient sconfig).m.up, value := 0,
             labelValues := [sclient.ClusterName.1] }] ∧
        ((NewFTSCollector o sclient sconfig).Collect elapsed).completed = true) := by
  constructor
  · intro e he hup
    have hlm : (NewIndexCollector o client config lm).m.labelManger = some lm := rfl
    have hcollect : (NewIndexCollector o client config lm).Collect o elapsed rangeOrder =
        Outcome.of [Call.GetBasicMetricContext]
          (down (NewIndexCollector o client config lm).m o.ClusterLabel) := by
      simp [indexCollector.Collect, hlm, he]
    have hout := Outcome.of_down [Call.GetBasicMetricContext]
      (NewIndexCollector o client config lm).m o.ClusterLabel hup rfl
    rw [hcollect]
    exact ⟨hout.2.2, hout.1, hout.2.1⟩
  · intro e he hup
    have hcollect : (NewFTSCollector o sclient sconfig).Collect elapsed =
        Outcome.of [Call.ClusterName]
          (down (NewFTSCollector o sclient sconfig).m sclient.ClusterName.1) := by
      have hcl : (NewFTSCollector o sclient sconfig).m.client = sclient := rfl
      simp [ftsCollector.Collect, hcl, he]
    have hout := Outcome.of_down [Call.ClusterName]
      (NewFTSCollector o sclient sconfig).m sclient.ClusterName.1 hup rfl
    rw [hcollect]
    exact ⟨hout.2.2, hout.1, hout.2.1⟩

/-- Witness of C5 (amended) on a label manager and a client whose context
resolution fails. -/
theorem collect_context_failure_witness :
    (((NewIndexCollector exampleObjects exampleClient (some exampleConfig)
          exampleLabelsDown).Collect exampleObjects 3 (fun _ s => s)).calls =
        [Call.GetBasicMetricContext] ∧
      ((NewIndexCollector exampleObjects exampleClient (some exampleConfig)
          exampleLabelsDown).Collect exampleObjects 3 (fun _ s => s)).ch =
        [{ desc := { fqName := "cb_index_up", help := "Couchbase cluster API is responding",
                     variableLabels := ["cluster"] },
           value := 0, labelValues := ["cluster"] }] ∧
      ((NewIndexCollector exampleObjects exampleClient (some exampleConfig)
          exampleLabelsDown).Collect exampleObjects 3 (fun _ s => s)).completed = true) ∧
    (((NewFTSCollector exampleObjects exampleClientNameDown (some exampleFtsConfig)).Collect
          3).calls = [Call.ClusterName] ∧
      ((NewFTSCollector exampleObjects exampleClientNameDown (some exampleFtsConfig)).Collect
          3).ch =
        [{ desc := { fqName := "cb_fts_up", help := "Couchbase cluster API is responding",
                     variableLabels := ["cluster"] },
           value := 0, labelValues := [""] }] ∧
      ((NewFTSCollector exampleObjects exampleClientNameDown
          (some exampleFtsConfig)).Collect 3).completed = true) :=
  ⟨(collect_context_failure exampleObjects exampleClient exampleClientNameDown
      (some exampleConfig) (some exampleFtsConfig) exampleLabelsDown 3 (fun _ s => s)).1
      "cluster unreachable" rfl (by decide),
   (collect_context_failure exampleObjects exampleClient exampleClientNameDown
      (some exampleConfig) (some exampleFtsConfig) exampleLabelsDown 3 (fun _ s => s)).2
      "cluster unreachable" rfl (by decide)⟩

/-- C4 fails as stated: with a namespace that holds a hyphen the descriptor of
the liveness metric carries an error, and when IndexStats fails after the context
was resolved the construction of the liveness metric panics: the channel receives
nothing. -/
theorem collect_stats_failure_panics_on_invalid_liveness_name :
    exampleLabels.GetBasicMetricContext = .ok { ClusterName := "c1", Scope := [] } ∧
      exampleClientStatsDown.IndexStats = .error "timeout" ∧
      (NewIndexCollector exampleObjects exampleClientStatsDown
          (some exampleConfigHyphenNamespace) exampleLabels).m.up =
        { fqName := "cb-1_index_up", help := "Couchbase cluster API is responding",
          variableLabels := ["cluster"], err := some DescError.invalidMetricName } ∧
      ((NewIndexCollector exampleObjects exampleClientStatsDown
          (some exampleConfigHyphenNamespace) exampleLabels).Collect exampleObjects 3
            (fun _ s => s)).ch = [] ∧
      ((NewIndexCollector exampleObjects exampleClientStatsDown
          (some exampleConfigHyphenNamespace) exampleLabels).Collect exampleObjects 3
            (fun _ s => s)).completed = false :=
  ⟨rfl, rfl, by decide, by decide, by decide⟩

/-- C4, amended. Index collector: when the liveness descriptor is valid,
GetBasicMetricContext succeeds with context ctx and a later fetch fails (Index;
or GetCurrentNode; or IndexStats on a node whose services include index), the
channel receives exactly one metric, liveness with value 0 labelled
ctx.ClusterName, and Collect returns. Search collector: the same with the cluster
name returned by ClusterName when Fts fails. -/
theorem collect_stats_failure {F : Type} [Zero F] [One F] (o : Objects)
    (client sclient : CbClient F) (config sconfig : Option CollectorConfig)
    (lm : CbLabelManager) (elapsed : F) (rangeOrder : Nat → Breakdown F → Breakdown F) :
    (∀ ctx, lm.GetBasicMetricContext = .ok ctx →
      (NewIndexCollector o client config lm).m.up.err = none →
      ((∃ e, client.Index = .error e) ∨
        (∃ indexStats e, client.Index = .ok indexStats ∧ client.GetCurrentNode = .error e) ∨
        (∃ indexStats currentNode e, client.Index = .ok indexStats ∧
          client.GetCurrentNode = .ok currentNode ∧
          contains currentNode.Services "index" = true ∧ client.IndexStats = .error e)) →
      ((NewIndexCollector o client config lm).Collect o elapsed rangeOrder).ch =
          [{ desc := (NewIndexCollector o client config lm).m.up, value := 0,
             labelValues := [ctx.ClusterName] }] ∧
        ((NewIndexCollector o client config lm).Collect o elapsed rangeOrder).completed = true) ∧
    (∀ e, sclient.ClusterName.2 = none → sclient.Fts = .error e →
      (NewFTSCollector o sclient sconfig).m.up.err = none →
      ((NewFTSCollector o sclient sconfig).Collect elapsed).ch =
          [{ desc := (NewFTSCollector o sclient sconfig).m.up, value := 0,
             labelValues := [sclient.ClusterName.1] }] ∧
        ((NewFTSCollector o sclient sconfig).Collect elapsed).completed = true) := by
  constructor
  · intro ctx hctx hup hfail
    have hlm : (NewIndexCollector o client config lm).m.labelManger = some lm := rfl
    have hcl : (NewIndexCollector o client config lm).m.client = client := rfl
    have hcollect : ∃ calls, (NewIndexCollector o client config lm).Collect o elapsed rangeOrder =
        Outcome.of calls (down (NewIndexCollector o client config lm).m ctx.ClusterName) := by
      rcases hfail with ⟨e, h1⟩ | ⟨indexStats, e, h1, h2⟩ |
        ⟨indexStats, currentNode, e, h1, h2, h3, h4⟩
      · exact ⟨[Call.GetBasicMetricContext, Call.Index],
          by simp [indexCollector.Collect, hlm, hcl, hctx, h1]⟩
      · exact ⟨[Call.GetBasicMetricContext, Call.Index, Call.GetCurrentNode],
          by simp [indexCollector.Collect, hlm, hcl, hctx, h1, h2]⟩
      · exact ⟨[Call.GetBasicMetricContext, Call.Index, Call.GetCurrentNode, Call.IndexStats],
          by simp [indexCollector.Collect, hlm, hcl, hctx, h1, h2, h3, h4]⟩
    obtain ⟨calls, hcollect⟩ := hcollect
    have hout := Outcome.of_down calls (NewIndexCollector o client config lm).m
      ctx.ClusterName hup rfl
    rw [hcollect]
    exact ⟨hout.1, hout.2.1⟩
  · intro e hname hfts hup
    have hcl : (NewFTSCollector o sclient sconfig).m.client = sclient := rfl
    have hcollect : (NewFTSCollector o sclient sconfig).Collect elapsed =
        Outcome.of [Call.ClusterName, Call.Fts]
          (down (NewFTSCollector o sclient sconfig).m sclient.ClusterName.1) := by
      simp [ftsCollector.Collect, hcl, hname, hfts]
    have hout := Outcome.of_down [Call.ClusterName, Call.Fts]
      (NewFTSCollector o sclient sconfig).m sclient.ClusterName.1 hup rfl
    rw [hcollect]
    exact ⟨hout.1, hout.2.1⟩

/-- Witness of C4 (amended) on a client whose IndexStats and Fts calls fail. -/
theorem collect_stats_failure_witness :
    (((NewIndexCollector exampleObjects exampleClientStatsDown (some exampleConfig)
          exampleLabels).Collect exampleObjects 3 (fun _ s => s)).ch =
        [{ desc := { fqName := "cb_index_up", help := "Couchbase cluster API is responding",
                     variableLabels := ["cluster"] },
           value := 0, labelValues := ["c1"] }] ∧
      ((NewIndexCollector exampleObjects exampleClientStatsDown (some exampleConfig)
          exampleLabels).Collect exampleObjects 3 (fun _ s => s)).completed = true) ∧
    (((NewFTSCollector exampleObjects exampleClientStatsDown (some exampleFtsConfig)).Collect
          3).ch =
        [{ desc := { fqName := "cb_fts_up", help := "Couchbase cluster API is responding",
                     variableLabels := ["cluster"] },
           value := 0, labelValues := ["c1"] }] ∧
      ((NewFTSCollector exampleObjects exampleClientStatsDown
          (some exampleFtsConfig)).Collect 3).completed = true) :=
  ⟨(collect_stats_failure exampleObjects exampleClientStatsDown exampleClientStatsDown
      (some exampleConfig) (some exampleFtsConfig) exampleLabels 3 (fun _ s => s)).1
      { ClusterName := "c1", Scope := [] } rfl (by decide)
      (Or.inr (Or.inr ⟨exampleStats, { Services := ["kv", "index"] }, "timeout",
        rfl, rfl, by decide, rfl⟩)),
   (collect_stats_failure exampleObjects exampleClientStatsDown exampleClientStatsDown
      (some exampleConfig) (some exampleFtsConfig) exampleLabels 3 (fun _ s => s)).2
      "timeout" rfl rfl (by decide)⟩

/-! Index collector, service absent -/

/-- C7 fails as stated, on a node without the index service. With an
enabled definition that declares the cluster label twice, the descriptor of
that definition carries an error, the construction of its aggregate sample panics
(although the label manager returns one value per label name), and the channel
receives nothing: no definition sample, no liveness 1, no duration. With
no definition and a namespace that holds a hyphen, the liveness descriptor carries
an error and the cycle does not end with liveness 1 and the duration: the
channel receives nothing. -/
theorem collect_service_absent_panics_on_duplicate_label :
    exampleClientNoIndex.GetCurrentNode = .ok { Services := ["kv", "fts"] } ∧
      contains ["kv", "fts"] "index" = false ∧
      (exampleConfigDuplicateLabel.Metrics.map
          (fun d => (d.GetPrometheusDescription "cb" "index").err)) =
        [some DescError.duplicateLabelNames] ∧
      exampleLabels.GetLabelValues ["cluster", "cluster"] { ClusterName := "c1", Scope := [] } =
        ["c1", "c1"] ∧
      ((NewIndexCollector exampleObjects exampleClientNoIndex (some exampleConfigDuplicateLabel)
          exampleLabels).Collect exampleObjects 3 (fun _ s => s)).ch = [] ∧
      ((NewIndexCollector exampleObjects exampleClientNoIndex (some exampleConfigDuplicateLabel)
          exampleLabels).Collect exampleObjects 3 (fun _ s => s)).completed = false ∧
      (NewIndexCollector exampleObjects exampleClientNoIndex (some exampleConfigHyphenNoMetrics)
          exampleLabels).m.up.err = some DescError.invalidMetricName ∧
      ((NewIndexCollector exampleObjects exampleClientNoIndex (some exampleConfigHyphenNoMetrics)
          exampleLabels).Collect exampleObjects 3 (fun _ s => s)).ch = [] ∧
      ((NewIndexCollector exampleObjects exampleClientNoIndex (some exampleConfigHyphenNoMetrics)
          exampleLabels).Collect exampleObjects 3 (fun _ s => s)).completed = false :=
  ⟨rfl, by decide, by decide, by decide, by decide, by decide, by decide, by decide,
    by decide⟩

/-- C7, amended. Index collector, service absent (GetBasicMetricContext, Index
and GetCurrentNode succeed and index is not among the services of the node), with
valid liveness and duration descriptors and a valid descriptor for every
enabled definition that does not declare the keyspace label: the calls made are exactly
these three, so IndexStats is not consulted; each definition contributes its
aggregate sample when it is enabled and does not declare the keyspace label, and
nothing otherwise (so no sample is emitted for a definition that declares the
keyspace label); the definition samples are thus one per enabled definition
without the keyspace label, in configuration order, each with the last sample of
its series and labelled with the values of the cluster-wide context; they are
followed by liveness 1 and then the duration, and Collect returns. -/
theorem collect_service_absent {F : Type} [Zero F] [One F] (o : Objects) (client : CbClient F)
    (config : Option CollectorConfig) (lm : CbLabelManager) (elapsed : F)
    (rangeOrder : Nat → Breakdown F → Breakdown F) (c : indexCollector F)
    (ctx : MetricContext) (indexStats : Stats F) (currentNode : Node)
    (hc : c = NewIndexCollector o client config lm)
    (hctx : lm.GetBasicMetricContext = .ok ctx) (hindex : client.Index = .ok indexStats)
    (hnode : client.GetCurrentNode = .ok currentNode)
    (habsent : contains currentNode.Services "index" = false)
    (hup : c.m.up.err = none) (hduration : c.m.scrapeDuration.err = none)
    (hdefs : ∀ d ∈ c.config.Metrics,
      (d.Enabled && !contains d.Labels o.KeyspaceLabel) = true →
      (d.GetPrometheusDescription c.config.Namespace c.config.Subsystem).err = none) :
    (c.Collect o elapsed rangeOrder).calls =
        [Call.GetBasicMetricContext, Call.Index, Call.GetCurrentNode] ∧
      Call.IndexStats ∉ (c.Collect o elapsed rangeOrder).calls ∧
      (c.Collect o elapsed rangeOrder).ch =
        c.config.Metrics.flatMap (fun d =>
          if (d.Enabled && !contains d.Labels o.KeyspaceLabel) = true then
            [{ desc := d.GetPrometheusDescription c.config.Namespace c.config.Subsystem
               value := last (indexStats.Op.Samples.at (o.IndexMetricPrefix ++ d.Name))
               labelValues := lm.GetLabelValues d.Labels ctx }]
          else []) ++
        [{ desc := c.m.up, value := 1, labelValues := [ctx.ClusterName] },
         { desc := c.m.scrapeDuration, value := elapsed, labelValues := [ctx.ClusterName] }] ∧
      (c.Collect o elapsed rangeOrder).ch =
        (c.config.Metrics.filter (fun d => d.Enabled && !contains d.Labels o.KeyspaceLabel)).map
          (fun d =>
            { desc := d.GetPrometheusDescription c.config.Namespace c.config.Subsystem
              value := last (indexStats.Op.Samples.at (o.IndexMetricPrefix ++ d.Name))
              labelValues := lm.GetLabelValues d.Labels ctx }) ++
        [{ desc := c.m.up, value := 1, labelValues := [ctx.ClusterName] },
         { desc := c.m.scrapeDuration, value := elapsed, labelValues := [ctx.ClusterName] }] ∧
      (c.Collect o elapsed rangeOrder).completed = true := by
  have hlm : c.m.labelManger = some lm := by rw [hc]; rfl
  have hcl : c.m.client = client := by rw [hc]; rfl
  have hupLabels : c.m.up.variableLabels.length = 1 := by rw [hc]; rfl
  have hdurLabels : c.m.scrapeDuration.variableLabels.length = 1 := by rw [hc]; rfl
  have hcollect : c.Collect o elapsed rangeOrder =
      Outcome.of [Call.GetBasicMetricContext, Call.Index, Call.GetCurrentNode]
        ((indexAbsentLoop o c.config lm indexStats ctx c.config.Metrics).flatten ++
          closing c.m elapsed ctx.ClusterName) := by
    simp [indexCollector.Collect, hlm, hcl, hctx, hindex, hnode, habsent]
  have hsends : ∀ s ∈ (indexAbsentLoop o c.config lm indexStats ctx c.config.Metrics).flatten,
      s.fits = true := by
    intro s hs
    rw [indexAbsentLoop_flatten] at hs
    obtain ⟨d, hd, rfl⟩ := List.mem_map.mp hs
    obtain ⟨hmem, hcond⟩ := List.mem_filter.mp hd
    exact indexAggregate_fits o c.config lm indexStats ctx d (hdefs d hmem hcond)
  have hout := Outcome.of_closing [Call.GetBasicMetricContext, Call.Index, Call.GetCurrentNode]
    _ c.m elapsed ctx.ClusterName hsends hup hupLabels hduration hdurLabels
  have hch : (c.Collect o elapsed rangeOrder).ch =
      (c.config.Metrics.filter (fun d => d.Enabled && !contains d.Labels o.KeyspaceLabel)).map
          (fun d =>
            { desc := d.GetPrometheusDescription c.config.Namespace c.config.Subsystem
              value := last (indexStats.Op.Samples.at (o.IndexMetricPrefix ++ d.Name))
              labelValues := lm.GetLabelValues d.Labels ctx }) ++
        [{ desc := c.m.up, value := 1, labelValues := [ctx.ClusterName] },
         { desc := c.m.scrapeDuration, value := elapsed, labelValues := [ctx.ClusterName] }] := by
    rw [hcollect, hout.1, indexAbsentLoop_flatten, List.map_map]
    rfl
  refine ⟨by rw [hcollect]; rfl, by rw [hcollect]; simp [Outcome.of], ?_, hch, ?_⟩
  · rw [hch, filter_map_eq_flatMap]
  · rw [hcollect]; exact hout.2

/-- Witness of C7 (amended) on a node without the index service: the
keyspace-scoped and the disabled definition contribute nothing. -/
theorem collect_service_absent_witness :
    ((NewIndexCollector exampleObjects exampleClientNoIndex (some exampleConfig)
        exampleLabels).Collect exampleObjects 3 (fun _ s => s)).ch =
      [{ desc := { fqName := "cb_index_op_count", help := "operations",
                   variableLabels := ["cluster"] },
         value := 5, labelValues := ["c1"] },
       { desc := { fqName := "cb_index_up", help := "Couchbase cluster API is responding",
                   variableLabels := ["cluster"] },
         value := 1, labelValues := ["c1"] },
       { desc := { fqName := "cb_index_scrape_duration_seconds",
                   help := "Scrape duration in seconds", variableLabels := ["cluster"] },
         value := 3, labelValues := ["c1"] }] :=
  (collect_service_absent exampleObjects exampleClientNoIndex (some exampleConfig)
    exampleLabels 3 (fun _ s => s) _ { ClusterName := "c1", Scope := [] } exampleStats
    { Services := ["kv", "fts"] } rfl rfl rfl rfl (by decide) (by decide) (by decide)
    (by decide)).2.2.2.1

/-! Search collector -/

/-- C8 fails as stated, ClusterName and Fts succeeding. With a second
enabled definition that declares two labels the channel receives the sample of the
first definition only and Collect panics. With a single enabled definition whose one
label has a reserved name the descriptor carries an error, Collect panics at once
and the channel receives nothing. With no definition and a namespace that holds a
hyphen the liveness descriptor carries an error and the channel receives
nothing. No output has (number of enabled definitions + 2) samples. -/
theorem fts_collect_shortened_by_label_mismatch :
    exampleFtsClient.ClusterName.2 = none ∧ exampleFtsClient.Fts = .ok exampleFtsStats ∧
      ((NewFTSCollector exampleObjects exampleFtsClient
          (some exampleFtsConfigTwoLabels)).Collect 3).ch =
        [{ desc := { fqName := "cb_fts_doc_count", help := "documents",
                     variableLabels := ["cluster"] },
           value := 8, labelValues := ["c1"] }] ∧
      ((NewFTSCollector exampleObjects exampleFtsClient
          (some exampleFtsConfigTwoLabels)).Collect 3).completed = false ∧
      ((NewFTSCollector exampleObjects exampleFtsClient
          (some exampleFtsConfigTwoLabels)).Collect 3).ch.length ≠
        exampleFtsConfigTwoLabels.Metrics.countP (fun d => d.Enabled) + 2 ∧
      (exampleFtsConfigReservedLabel.Metrics.map
          (fun d => (d.Enabled, d.Labels.length, (d.GetPrometheusDescription "cb" "fts").err))) =
        [(true, 1, some (DescError.invalidLabelName "__name__"))] ∧
      ((NewFTSCollector exampleObjects exampleFtsClient
          (some exampleFtsConfigReservedLabel)).Collect 3).ch = [] ∧
      ((NewFTSCollector exampleObjects exampleFtsClient
          (some exampleFtsConfigReservedLabel)).Collect 3).completed = false ∧
      (NewFTSCollector exampleObjects exampleFtsClient
          (some exampleConfigHyphenNoMetrics)).m.up.err = some DescError.invalidMetricName ∧
      ((NewFTSCollector exampleObjects exampleFtsClient
          (some exampleConfigHyphenNoMetrics)).Collect 3).ch.length ≠
        exampleConfigHyphenNoMetrics.Metrics.countP (fun d => d.Enabled) + 2 :=
  ⟨rfl, rfl, by decide, by decide, by decide, by decide, by decide, by decide, by decide,
    by decide⟩

/-- C8, amended. Search collector, when ClusterName and Fts succeed, the liveness
and duration descriptors are valid, and every enabled definition has a valid
descriptor and declares exactly one label: the definition samples are one per
enabled definition, in configuration order, each with the last sample of the
series Subsystem + "_" + name as value and the cluster name as label value; they
are followed by liveness 1 and the duration, so the output has (number of
enabled definitions + 2) samples and Collect returns; a definition whose series is absent
from the map, or empty, has the value zero. -/
theorem fts_collect_samples {F : Type} [Zero F] [One F] (o : Objects) (client : CbClient F)
    (config : Option CollectorConfig) (elapsed : F) (c : ftsCollector F) (ftsStats : Stats F)
    (hc : c = NewFTSCollector o client config)
    (hname : client.ClusterName.2 = none) (hfts : client.Fts = .ok ftsStats)
    (hup : c.m.up.err = none) (hduration : c.m.scrapeDuration.err = none)
    (hdefs : ∀ d ∈ c.config.Metrics, d.Enabled = true →
      (d.GetPrometheusDescription c.config.Namespace c.config.Subsystem).err = none ∧
        d.Labels.length = 1) :
    (c.Collect elapsed).ch =
        (c.config.Metrics.filter (fun d => d.Enabled)).map
          (fun d =>
            { desc := d.GetPrometheusDescription c.config.Namespace c.config.Subsystem
              value := last (ftsStats.Op.Samples.at (c.config.Subsystem ++ "_" ++ d.Name))
              labelValues := [client.ClusterName.1] }) ++
        [{ desc := c.m.up, value := 1, labelValues := [client.ClusterName.1] },
         { desc := c.m.scrapeDuration, value := elapsed,
           labelValues := [client.ClusterName.1] }] ∧
      (c.Collect elapsed).ch.length = c.config.Metrics.countP (fun d => d.Enabled) + 2 ∧
      (c.Collect elapsed).completed = true ∧
      (∀ d : MetricInfo,
        (ftsStats.Op.Samples (c.config.Subsystem ++ "_" ++ d.Name) = none ∨
          ftsStats.Op.Samples (c.config.Subsystem ++ "_" ++ d.Name) = some []) →
        last (ftsStats.Op.Samples.at (c.config.Subsystem ++ "_" ++ d.Name)) = 0) := by
  have hcl : c.m.client = client := by rw [hc]; rfl
  have hupLabels : c.m.up.variableLabels.length = 1 := by rw [hc]; rfl
  have hdurLabels : c.m.scrapeDuration.variableLabels.length = 1 := by rw [hc]; rfl
  have hcollect : c.Collect elapsed =
      Outcome.of [Call.ClusterName, Call.Fts]
        ((ftsLoop c.config ftsStats client.ClusterName.1 c.config.Metrics).flatten ++
          closing c.m elapsed client.ClusterName.1) := by
    simp [ftsCollector.Collect, hcl, hname, hfts]
  have hsends : ∀ s ∈ (ftsLoop c.config ftsStats client.ClusterName.1 c.config.Metrics).flatten,
      s.fits = true := by
    intro s hs
    rw [ftsLoop_flatten] at hs
    obtain ⟨d, hd, rfl⟩ := List.mem_map.mp hs
    obtain ⟨hmem, hen⟩ := List.mem_filter.mp hd
    rw [ftsAggregate_fits]
    simp [(hdefs d hmem hen).1, (hdefs d hmem hen).2]
  have hout := Outcome.of_closing [Call.ClusterName, Call.Fts] _ c.m elapsed
    client.ClusterName.1 hsends hup hupLabels hduration hdurLabels
  have hch : (c.Collect elapsed).ch =
      (c.config.Metrics.filter (fun d => d.Enabled)).map
          (fun d =>
            { desc := d.GetPrometheusDescription c.config.Namespace c.config.Subsystem
              value := last (ftsStats.Op.Samples.at (c.config.Subsystem ++ "_" ++ d.Name))
              labelValues := [client.ClusterName.1] }) ++
        [{ desc := c.m.up, value := 1, labelValues := [client.ClusterName.1] },
         { desc := c.m.scrapeDuration, value := elapsed,
           labelValues := [client.ClusterName.1] }] := by
    rw [hcollect, hout.1, ftsLoop_flatten, List.map_map]
    rfl
  refine ⟨hch, ?_, by rw [hcollect]; exact hout.2, ?_⟩
  · rw [hch]
    simp [List.countP_eq_length_filter]
  · intro d hd
    rcases hd with hd | hd <;> simp [Samples.at, hd, last]

/-- Witness of C8 (amended): three enabled definitions with one label each, the
second with an empty series and the third with no series. -/
theorem fts_collect_samples_witness :
    ((NewFTSCollector exampleObjects exampleFtsClient (some exampleFtsConfig)).Collect 3).ch =
      [{ desc := { fqName := "cb_fts_doc_count", help := "documents",
                   variableLabels := ["cluster"] },
         value := 8, labelValues := ["c1"] },
       { desc := { fqName := "cb_fts_total_queries", help := "queries",
                   variableLabels := ["cluster"] },
         value := 0, labelValues := ["c1"] },
       { desc := { fqName := "cb_fts_num_pindexes", help := "pindexes",
                   variableLabels := ["cluster"] },
         value := 0, labelValues := ["c1"] },
       { desc := { fqName := "cb_fts_up", help := "Couchbase cluster API is responding",
                   variableLabels := ["cluster"] },
         value := 1, labelValues := ["c1"] },
       { desc := { fqName := "cb_fts_scrape_duration_seconds",
                   help := "Scrape duration in seconds", variableLabels := ["cluster"] },
         value := 3, labelValues := ["c1"] }] :=
  (fts_collect_samples exampleObjects exampleFtsClient (some exampleFtsConfig) 3 _
    exampleFtsStats rfl rfl rfl (by decide) (by decide) (by decide)).1

/-- C9 fails as stated, ClusterName and Fts succeeding. For a definition that
declares no label the search collector still passes one label value, the sample
cannot be constructed, and Collect panics before any metric (the liveness metric
included) is sent. For a definition that declares one label and has an empty name
the label values are as many as the declared labels, yet the descriptor carries
an error and Collect panics in the same way. With no definition and a namespace
that holds a hyphen the liveness descriptor carries an error and Collect panics
at the liveness metric. -/
theorem fts_collect_panics_on_unlabelled_definition :
    (ftsLoop exampleFtsConfigNoLabel exampleFtsStats "c1" exampleFtsConfigNoLabel.Metrics).flatten =
        [{ desc := { fqName := "cb_fts_doc_count", help := "documents", variableLabels := [] },
           value := 8, labelValues := ["c1"] }] ∧
      MustNewConstMetric
        ({ fqName := "cb_fts_doc_count", help := "documents", variableLabels := [] } : Desc)
        (8 : Int) ["c1"] = none ∧
      ((NewFTSCollector exampleObjects exampleFtsClient
          (some exampleFtsConfigNoLabel)).Collect 3).ch = [] ∧
      ((NewFTSCollector exampleObjects exampleFtsClient
          (some exampleFtsConfigNoLabel)).Collect 3).completed = false ∧
      (ftsLoop exampleFtsConfigUnnamed exampleFtsStats "c1"
          exampleFtsConfigUnnamed.Metrics).flatten =
        [{ desc := { fqName := "", help := "unnamed", variableLabels := ["cluster"],
                     err := some DescError.invalidMetricName },
           value := 0, labelValues := ["c1"] }] ∧
      ((NewFTSCollector exampleObjects exampleFtsClient
          (some exampleFtsConfigUnnamed)).Collect 3).ch = [] ∧
      ((NewFTSCollector exampleObjects exampleFtsClient
          (some exampleFtsConfigUnnamed)).Collect 3).completed = false ∧
      (NewFTSCollector exampleObjects exampleFtsClient
          (some exampleConfigHyphenNoMetrics)).m.up.err = some DescError.invalidMetricName ∧
      ((NewFTSCollector exampleObjects exampleFtsClient
          (some exampleConfigHyphenNoMetrics)).Collect 3).completed = false := by
  decide

/-- C9, amended. Search collector, when ClusterName and Fts succeed and the
liveness and duration descriptors are valid: the channel receives the samples of
the enabled definitions, in configuration order, up to the first
enabled definition whose descriptor is not valid or that declares a number of labels
other than one, where the construction of the sample panics; each sample carries
one label value, the cluster name, which is as many as its definition declares;
the liveness and duration metrics follow only when no enabled definition stopped
the cycle, and Collect returns exactly when every enabled definition has a valid
descriptor and declares exactly one label name. -/
theorem fts_collect_label_values {F : Type} [Zero F] [One F] (o : Objects)
    (client : CbClient F) (config : Option CollectorConfig) (elapsed : F) (c : ftsCollector F)
    (ftsStats : Stats F) (hc : c = NewFTSCollector o client config)
    (hname : client.ClusterName.2 = none) (hfts : client.Fts = .ok ftsStats)
    (hup : c.m.up.err = none) (hduration : c.m.scrapeDuration.err = none) :
    (c.Collect elapsed).ch =
        ((c.config.Metrics.filter (fun d => d.Enabled)).takeWhile (fun d =>
            (d.GetPrometheusDescription c.config.Namespace c.config.Subsystem).err.isNone &&
              d.Labels.length == 1)).map
          (fun d =>
            { desc := d.GetPrometheusDescription c.config.Namespace c.config.Subsystem
              value := last (ftsStats.Op.Samples.at (c.config.Subsystem ++ "_" ++ d.Name))
              labelValues := [client.ClusterName.1] }) ++
        (if (c.config.Metrics.filter (fun d => d.Enabled)).all (fun d =>
            (d.GetPrometheusDescription c.config.Namespace c.config.Subsystem).err.isNone &&
              d.Labels.length == 1) = true then
          [{ desc := c.m.up, value := 1, labelValues := [client.ClusterName.1] },
           { desc := c.m.scrapeDuration, value := elapsed,
             labelValues := [client.ClusterName.1] }]
        else []) ∧
      (∀ d ∈ (c.config.Metrics.filter (fun d => d.Enabled)).takeWhile (fun d =>
            (d.GetPrometheusDescription c.config.Namespace c.config.Subsystem).err.isNone &&
              d.Labels.length == 1),
        [client.ClusterName.1].length = d.Labels.length) ∧
      ((c.Collect elapsed).completed = true ↔
        ∀ d ∈ c.config.Metrics, d.Enabled = true →
          (d.GetPrometheusDescription c.config.Namespace c.config.Subsystem).err = none ∧
            d.Labels.length = 1) := by
  have hcl : c.m.client = client := by rw [hc]; rfl
  have hupLabels : c.m.up.variableLabels.length = 1 := by rw [hc]; rfl
  have hdurLabels : c.m.scrapeDuration.variableLabels.length = 1 := by rw [hc]; rfl
  have hcollect : c.Collect elapsed =
      Outcome.of [Call.ClusterName, Call.Fts]
        ((ftsLoop c.config ftsStats client.ClusterName.1 c.config.Metrics).flatten ++
          closing c.m elapsed client.ClusterName.1) := by
    simp [ftsCollector.Collect, hcl, hname, hfts]
  have hclosing := closing_fits c.m elapsed client.ClusterName.1 hup hupLabels hduration
    hdurLabels
  have hfits : (fun d => (ftsAggregate c.config ftsStats client.ClusterName.1 d).fits) =
      (fun d : MetricInfo =>
        (d.GetPrometheusDescription c.config.Namespace c.config.Subsystem).err.isNone &&
          d.Labels.length == 1) := by
    funext d
    exact ftsAggregate_fits c.config ftsStats client.ClusterName.1 d
  have hall : ((ftsLoop c.config ftsStats client.ClusterName.1 c.config.Metrics).flatten).all
      Send.fits =
      (c.config.Metrics.filter (fun d => d.Enabled)).all (fun d =>
        (d.GetPrometheusDescription c.config.Namespace c.config.Subsystem).err.isNone &&
          d.Labels.length == 1) := by
    rw [ftsLoop_flatten, all_map_eq, hfits]
  refine ⟨?_, ?_, ?_⟩
  · rw [hcollect]
    simp only [Outcome.of, deliver_eq]
    rw [takeWhile_append_of_all _ _ _ hclosing, hall, ftsLoop_flatten, takeWhile_map, hfits,
      List.map_append, List.map_map]
    congr 1
    split <;> simp [closing, Send.toMetric]
  · intro d hd
    have hgood := List.mem_takeWhile_imp hd
    simp only [Bool.and_eq_true, beq_iff_eq] at hgood
    simp [hgood.2]
  · rw [hcollect]
    simp only [Outcome.of, deliver_eq, List.all_append, hall, Bool.and_eq_true]
    have hclosingAll : (closing c.m elapsed client.ClusterName.1).all Send.fits = true :=
      List.all_eq_true.mpr hclosing
    simp only [hclosingAll, and_true, List.all_eq_true, List.mem_filter, Bool.and_eq_true,
      beq_iff_eq, Option.isNone_iff_eq_none]
    constructor
    · intro h d hd hen
      exact h d ⟨hd, hen⟩
    · intro h d hd
      exact h d hd.1 hd.2

/-- Witness of C9 (amended): with a valid descriptor and one label per
enabled definition Collect returns. -/
theorem fts_collect_label_values_witness :
    ((NewFTSCollector exampleObjects exampleFtsClient (some exampleFtsConfig)).Collect
        3).completed = true :=
  (fts_collect_label_values exampleObjects exampleFtsClient (some exampleFtsConfig) 3 _
    exampleFtsStats rfl rfl rfl (by decide) (by decide)).2.2.2 (by decide)

/-! Liveness and duration -/

theorem countP_liveness {F : Type} (defs : List (Metric F)) (up duration : Desc) (v e : F)
    (label : String) (ok : Bool)
    (hdefs : ∀ m ∈ defs, m.desc ≠ up ∧ m.desc ≠ duration) (hne : up ≠ duration) :
    List.countP (fun m : Metric F => decide (m.desc = up))
        (defs ++ ({ desc := up, value := v, labelValues := [label] } : Metric F) ::
          (if ok = true then
            [({ desc := duration, value := e, labelValues := [label] } : Metric F)]
          else [])) = 1 ∧
      List.countP (fun m : Metric F => decide (m.desc = duration))
        (defs ++ ({ desc := up, value := v, labelValues := [label] } : Metric F) ::
          (if ok = true then
            [({ desc := duration, value := e, labelValues := [label] } : Metric F)]
          else [])) = (if ok = true then 1 else 0) := by
  have h1 : defs.countP (fun m => decide (m.desc = up)) = 0 :=
    List.countP_eq_zero.mpr (fun m hm => by simpa using (hdefs m hm).1)
  have h2 : defs.countP (fun m => decide (m.desc = duration)) = 0 :=
    List.countP_eq_zero.mpr (fun m hm => by simpa using (hdefs m hm).2)
  have hne2 : duration ≠ up := fun h => hne h.symm
  cases ok <;> simp [List.countP_append, List.countP_cons, h1, h2, hne, hne2]

/-- Shape of a cycle of the index collector whose descriptors are all valid. -/
theorem index_collect_shape {F : Type} [Zero F] [One F] (o : Objects)
    (client : CbClient F) (config : Option CollectorConfig) (lm : CbLabelManager) (elapsed : F)
    (rangeOrder : Nat → Breakdown F → Breakdown F) (c : indexCollector F)
    (hc : c = NewIndexCollector o client config lm)
    (hup : c.m.up.err = none) (hduration : c.m.scrapeDuration.err = none)
    (hdefs : ∀ d ∈ c.config.Metrics,
      (d.GetPrometheusDescription c.config.Namespace c.config.Subsystem).err = none) :
    ∃ (defs : List (Metric F)) (ok : Bool) (label : String),
      (c.Collect o elapsed rangeOrder).ch =
          defs ++ { desc := c.m.up, value := if ok = true then 1 else 0, labelValues := [label] } ::
            (if ok = true then
              [{ desc := c.m.scrapeDuration, value := elapsed, labelValues := [label] }]
            else []) ∧
        (∀ m ∈ defs, ∃ d ∈ c.config.Metrics,
          m.desc = d.GetPrometheusDescription c.config.Namespace c.config.Subsystem) ∧
        (ok = true ↔
          ∀ call ∈ (c.Collect o elapsed rangeOrder).calls,
            call.succeeded (some lm) client = true) ∧
        (c.Collect o elapsed rangeOrder).completed = true := by
  have hlm : c.m.labelManger = some lm := by rw [hc]; rfl
  have hcl : c.m.client = client := by rw [hc]; rfl
  have hupLabels : c.m.up.variableLabels.length = 1 := by rw [hc]; rfl
  have hdurLabels : c.m.scrapeDuration.variableLabels.length = 1 := by rw [hc]; rfl
  cases hctx : lm.GetBasicMetricContext with
  | error e =>
    have hcollect : c.Collect o elapsed rangeOrder =
        Outcome.of [Call.GetBasicMetricContext] (down c.m o.ClusterLabel) := by
      simp [indexCollector.Collect, hlm, hctx]
    have hout := Outcome.of_down [Call.GetBasicMetricContext] c.m o.ClusterLabel hup hupLabels
    refine ⟨[], false, o.ClusterLabel, ?_, ?_, ?_, ?_⟩
    · rw [hcollect, hout.1]; simp
    · intro m hm; simp at hm
    · rw [hcollect, hout.2.2]
      simp [Call.succeeded, hctx, Except.isOk, Except.toBool]
    · rw [hcollect]; exact hout.2.1
  | ok ctx =>
    cases hindex : client.Index with
    | error e =>
      have hcollect : c.Collect o elapsed rangeOrder =
          Outcome.of [Call.GetBasicMetricContext, Call.Index] (down c.m ctx.ClusterName) := by
        simp [indexCollector.Collect, hlm, hcl, hctx, hindex]
      have hout := Outcome.of_down [Call.GetBasicMetricContext, Call.Index] c.m
        ctx.ClusterName hup hupLabels
      refine ⟨[], false, ctx.ClusterName, ?_, ?_, ?_, ?_⟩
      · rw [hcollect, hout.1]; simp
      · intro m hm; simp at hm
      · rw [hcollect, hout.2.2]
        simp [Call.succeeded, hindex, Except.isOk, Except.toBool]
      · rw [hcollect]; exact hout.2.1
    | ok indexStats =>
      cases hnode : client.GetCurrentNode with
      | error e =>
        have hcollect : c.Collect o elapsed rangeOrder =
            Outcome.of [Call.GetBasicMetricContext, Call.Index, Call.GetCurrentNode]
              (down c.m ctx.ClusterName) := by
          simp [indexCollector.Collect, hlm, hcl, hctx, hindex, hnode]
        have hout := Outcome.of_down
          [Call.GetBasicMetricContext, Call.Index, Call.GetCurrentNode] c.m
          ctx.ClusterName hup hupLabels
        refine ⟨[], false, ctx.ClusterName, ?_, ?_, ?_, ?_⟩
        · rw [hcollect, hout.1]; simp
        · intro m hm; simp at hm
        · rw [hcollect, hout.2.2]
          simp [Call.succeeded, hnode, Except.isOk, Except.toBool]
        · rw [hcollect]; exact hout.2.1
      | ok currentNode =>
        cases hsvc : contains currentNode.Services "index" with
        | false =>
          have hcollect : c.Collect o elapsed rangeOrder =
              Outcome.of [Call.GetBasicMetricContext, Call.Index, Call.GetCurrentNode]
                ((indexAbsentLoop o c.config lm indexStats ctx c.config.Metrics).flatten ++
                  closing c.m elapsed ctx.ClusterName) := by
            simp [indexCollector.Collect, hlm, hcl, hctx, hindex, hnode, hsvc]
          have hsends :
              ∀ t ∈ (indexAbsentLoop o c.config lm indexStats ctx c.config.Metrics).flatten,
                t.fits = true := by
            intro t ht
            rw [indexAbsentLoop_flatten] at ht
            obtain ⟨d, hd, rfl⟩ := List.mem_map.mp ht
            exact indexAggregate_fits o c.config lm indexStats ctx d
              (hdefs d (List.mem_filter.mp hd).1)
          have hout := Outcome.of_closing
            [Call.GetBasicMetricContext, Call.Index, Call.GetCurrentNode] _ c.m elapsed
            ctx.ClusterName hsends hup hupLabels hduration hdurLabels
          refine ⟨List.map Send.toMetric
            (indexAbsentLoop o c.config lm indexStats ctx c.config.Metrics).flatten,
            true, ctx.ClusterName, ?_, ?_, ?_, ?_⟩
          · rw [hcollect, hout.1]; simp
          · intro m hm
            rw [indexAbsentLoop_flatten, List.map_map] at hm
            obtain ⟨d, hd, rfl⟩ := List.mem_map.mp hm
            exact ⟨d, (List.mem_filter.mp hd).1, rfl⟩
          · rw [hcollect]
            simp [Outcome.of, Call.succeeded, hctx, hindex, hnode, Except.isOk, Except.toBool]
          · rw [hcollect]; exact hout.2
        | true =>
          cases hstats : client.IndexStats with
          | error e =>
            have hcollect : c.Collect o elapsed rangeOrder =
                Outcome.of
                  [Call.GetBasicMetricContext, Call.Index, Call.GetCurrentNode,
                    Call.IndexStats]
                  (down c.m ctx.ClusterName) := by
              simp [indexCollector.Collect, hlm, hcl, hctx, hindex, hnode, hsvc, hstats]
            have hout := Outcome.of_down
              [Call.GetBasicMetricContext, Call.Index, Call.GetCurrentNode, Call.IndexStats]
              c.m ctx.ClusterName hup hupLabels
            refine ⟨[], false, ctx.ClusterName, ?_, ?_, ?_, ?_⟩
            · rw [hcollect, hout.1]; simp
            · intro m hm; simp at hm
            · rw [hcollect, hout.2.2]
              simp [Call.succeeded, hstats, Except.isOk, Except.toBool]
            · rw [hcollect]; exact hout.2.1
          | ok stats =>
            have hcollect : c.Collect o elapsed rangeOrder =
                Outcome.of
                  [Call.GetBasicMetricContext, Call.Index, Call.GetCurrentNode,
                    Call.IndexStats]
                  ((indexPresentLoop o c.config lm indexStats stats rangeOrder 0 ctx
                      c.config.Metrics).2.flatten ++
                    closing c.m elapsed
                      (indexPresentLoop o c.config lm indexStats stats rangeOrder 0 ctx
                        c.config.Metrics).1.ClusterName) := by
              simp [indexCollector.Collect, hlm, hcl, hctx, hindex, hnode, hsvc, hstats]
            have hout := Outcome.of_closing
              [Call.GetBasicMetricContext, Call.Index, Call.GetCurrentNode, Call.IndexStats]
              _ c.m elapsed
              (indexPresentLoop o c.config lm indexStats stats rangeOrder 0 ctx
                c.config.Metrics).1.ClusterName
              (indexPresentLoop_fits o c.config lm indexStats stats rangeOrder
                c.config.Metrics 0 ctx hdefs) hup hupLabels hduration hdurLabels
            refine ⟨List.map Send.toMetric
              (indexPresentLoop o c.config lm indexStats stats rangeOrder 0 ctx
                c.config.Metrics).2.flatten, true,
              (indexPresentLoop o c.config lm indexStats stats rangeOrder 0 ctx
                c.config.Metrics).1.ClusterName, ?_, ?_, ?_, ?_⟩
            · rw [hcollect, hout.1]; simp
            · intro m hm
              obtain ⟨t, ht, rfl⟩ := List.mem_map.mp hm
              exact indexPresentLoop_desc o c.config lm indexStats stats rangeOrder
                c.config.Metrics 0 ctx t ht
            · rw [hcollect]
              simp [Outcome.of, Call.succeeded, hctx, hindex, hnode, hstats, Except.isOk,
                Except.toBool]
            · rw [hcollect]; exact hout.2

/-- Shape of a cycle of the search collector whose descriptors are valid and
whose enabled definitions declare one label each. -/
theorem fts_collect_shape {F : Type} [Zero F] [One F] (o : Objects)
    (sclient : CbClient F) (sconfig : Option CollectorConfig) (elapsed : F)
    (s : ftsCollector F) (hs : s = NewFTSCollector o sclient sconfig)
    (hup : s.m.up.err = none) (hduration : s.m.scrapeDuration.err = none)
    (hdefs : ∀ d ∈ s.config.Metrics, d.Enabled = true →
      (d.GetPrometheusDescription s.config.Namespace s.config.Subsystem).err = none ∧
        d.Labels.length = 1) :
    ∃ (defs : List (Metric F)) (ok : Bool) (label : String),
      (s.Collect elapsed).ch =
          defs ++ { desc := s.m.up, value := if ok = true then 1 else 0, labelValues := [label] } ::
            (if ok = true then
              [{ desc := s.m.scrapeDuration, value := elapsed, labelValues := [label] }]
            else []) ∧
        (∀ m ∈ defs, ∃ d ∈ s.config.Metrics, d.Enabled = true ∧
          m.desc = d.GetPrometheusDescription s.config.Namespace s.config.Subsystem) ∧
        (ok = true ↔
          ∀ call ∈ (s.Collect elapsed).calls, call.succeeded none sclient = true) ∧
        (s.Collect elapsed).completed = true := by
  have hcl : s.m.client = sclient := by rw [hs]; rfl
  have hupLabels : s.m.up.variableLabels.length = 1 := by rw [hs]; rfl
  have hdurLabels : s.m.scrapeDuration.variableLabels.length = 1 := by rw [hs]; rfl
  cases hname : sclient.ClusterName.2 with
  | some e =>
    have hcollect : s.Collect elapsed =
        Outcome.of [Call.ClusterName] (down s.m sclient.ClusterName.1) := by
      simp [ftsCollector.Collect, hcl, hname]
    have hout := Outcome.of_down [Call.ClusterName] s.m sclient.ClusterName.1 hup hupLabels
    refine ⟨[], false, sclient.ClusterName.1, ?_, ?_, ?_, ?_⟩
    · rw [hcollect, hout.1]; simp
    · intro m hm; simp at hm
    · rw [hcollect, hout.2.2]
      simp [Call.succeeded, hname]
    · rw [hcollect]; exact hout.2.1
  | none =>
    cases hfts : sclient.Fts with
    | error e =>
      have hcollect : s.Collect elapsed =
          Outcome.of [Call.ClusterName, Call.Fts] (down s.m sclient.ClusterName.1) := by
        simp [ftsCollector.Collect, hcl, hname, hfts]
      have hout := Outcome.of_down [Call.ClusterName, Call.Fts] s.m sclient.ClusterName.1
        hup hupLabels
      refine ⟨[], false, sclient.ClusterName.1, ?_, ?_, ?_, ?_⟩
      · rw [hcollect, hout.1]; simp
      · intro m hm; simp at hm
      · rw [hcollect, hout.2.2]
        simp [Call.succeeded, hfts, Except.isOk, Except.toBool]
      · rw [hcollect]; exact hout.2.1
    | ok ftsStats =>
      have hcollect : s.Collect elapsed =
          Outcome.of [Call.ClusterName, Call.Fts]
            ((ftsLoop s.config ftsStats sclient.ClusterName.1 s.config.Metrics).flatten ++
              closing s.m elapsed sclient.ClusterName.1) := by
        simp [ftsCollector.Collect, hcl, hname, hfts]
      have hsends :
          ∀ t ∈ (ftsLoop s.config ftsStats sclient.ClusterName.1 s.config.Metrics).flatten,
            t.fits = true := by
        intro t ht
        rw [ftsLoop_flatten] at ht
        obtain ⟨d, hd, rfl⟩ := List.mem_map.mp ht
        obtain ⟨hmem, hen⟩ := List.mem_filter.mp hd
        rw [ftsAggregate_fits]
        simp [(hdefs d hmem hen).1, (hdefs d hmem hen).2]
      have hout := Outcome.of_closing [Call.ClusterName, Call.Fts] _ s.m elapsed
        sclient.ClusterName.1 hsends hup hupLabels hduration hdurLabels
      refine ⟨List.map Send.toMetric
        (ftsLoop s.config ftsStats sclient.ClusterName.1 s.config.Metrics).flatten,
        true, sclient.ClusterName.1, ?_, ?_, ?_, ?_⟩
      · rw [hcollect, hout.1]; simp
      · intro m hm
        rw [ftsLoop_flatten, List.map_map] at hm
        obtain ⟨d, hd, rfl⟩ := List.mem_map.mp hm
        exact ⟨d, (List.mem_filter.mp hd).1, (List.mem_filter.mp hd).2, rfl⟩
      · rw [hcollect]
        simp [Outcome.of, Call.succeeded, hname, hfts, Except.isOk, Except.toBool]
      · rw [hcollect]; exact hout.2

/-- C3 fails as stated. Search collector, ClusterName and Fts succeeding: with an
enabled definition that declares two labels Collect panics at that definition
and the channel receives no liveness metric; with an enabled definition that has
the name, label and help text of the liveness metric the channel receives two
metrics with the liveness descriptor. Index collector, every checked call
succeeding: with a definition that declares the cluster label twice Collect
panics and the channel receives nothing; with no definition and a namespace that
holds a hyphen the liveness descriptor carries an error and the channel receives
nothing; and the error returned by GetMetricContext for the key beer:idx is
discarded, the liveness value being 1 although that call failed. -/
theorem collect_liveness_missing_or_unaffected :
    (∀ m ∈ ((NewFTSCollector exampleObjects exampleFtsClient
          (some exampleFtsConfigTwoLabels)).Collect 3).ch,
        m.desc ≠ (NewFTSCollector exampleObjects exampleFtsClient
          (some exampleFtsConfigTwoLabels)).m.up) ∧
      ((NewFTSCollector exampleObjects exampleFtsClient
          (some exampleFtsConfigTwoLabels)).Collect 3).calls = [Call.ClusterName, Call.Fts] ∧
      Call.succeeded none exampleFtsClient Call.ClusterName = true ∧
      Call.succeeded none exampleFtsClient Call.Fts = true ∧
      (((NewFTSCollector exampleObjects exampleFtsClient
          (some exampleFtsConfigUp)).Collect 3).ch.map (fun m => (m.desc.fqName, m.value)) =
        [("cb_fts_up", 0), ("cb_fts_up", 1), ("cb_fts_scrape_duration_seconds", 3)]) ∧
      ((NewFTSCollector exampleObjects exampleFtsClient
          (some exampleFtsConfigUp)).Collect 3).ch.countP
            (fun m => decide (m.desc = (NewFTSCollector exampleObjects exampleFtsClient
              (some exampleFtsConfigUp)).m.up)) = 2 ∧
      ((NewIndexCollector exampleObjects exampleClient (some exampleConfigDuplicateLabel)
          exampleLabels).Collect exampleObjects 3 (fun _ s => s)).calls =
        [Call.GetBasicMetricContext, Call.Index, Call.GetCurrentNode, Call.IndexStats] ∧
      ((NewIndexCollector exampleObjects exampleClient (some exampleConfigDuplicateLabel)
          exampleLabels).Collect exampleObjects 3 (fun _ s => s)).ch = [] ∧
      (NewIndexCollector exampleObjects exampleClient (some exampleConfigHyphenNoMetrics)
          exampleLabels).m.up.err = some DescError.invalidMetricName ∧
      ((NewIndexCollector exampleObjects exampleClient (some exampleConfigHyphenNoMetrics)
          exampleLabels).Collect exampleObjects 3 (fun _ s => s)).ch = [] ∧
      (exampleLabels.GetMetricContext "" "beer:idx").2 = some "unknown keyspace" ∧
      (((NewIndexCollector exampleObjects exampleClient (some exampleConfig)
          exampleLabels).Collect exampleObjects 3 (fun _ s => s)).ch.map
            (fun m => (m.desc.fqName, m.value))).drop 4 =
        [("cb_index_up", 1), ("cb_index_scrape_duration_seconds", 3)] := by
  decide

/-- C3, amended. Index collector: when the liveness and duration descriptors are
valid and distinct and every definition of the configuration has a valid
descriptor that is neither of the two; search collector: when the liveness and
duration descriptors are valid and distinct and every enabled definition has a
valid descriptor that is neither of the two and declares exactly one label. Then,
for every outcome of the external calls, the channel receives the definition
samples, then the liveness metric, then the duration metric if and only if the
liveness value is 1 (it is then the last metric, with the label of the liveness
metric), and Collect returns; exactly one metric received carries the liveness
descriptor, and one or none the duration descriptor. The liveness value is 1 if
and only if every call whose error the collector checks and that was made in the
cycle succeeded (GetBasicMetricContext, Index, GetCurrentNode and IndexStats;
ClusterName and Fts), and 0 otherwise. The error of GetMetricContext is not
checked and does not enter the liveness value. -/
theorem collect_liveness {F : Type} [Zero F] [One F] (o : Objects)
    (client sclient : CbClient F) (config sconfig : Option CollectorConfig)
    (lm : CbLabelManager) (elapsed : F) (rangeOrder : Nat → Breakdown F → Breakdown F)
    (c : indexCollector F) (s : ftsCollector F)
    (hc : c = NewIndexCollector o client config lm)
    (hs : s = NewFTSCollector o sclient sconfig)
    (hup : c.m.up.err = none) (hduration : c.m.scrapeDuration.err = none)
    (hdistinct : c.m.up ≠ c.m.scrapeDuration)
    (hdefs : ∀ d ∈ c.config.Metrics,
      (d.GetPrometheusDescription c.config.Namespace c.config.Subsystem).err = none ∧
        d.GetPrometheusDescription c.config.Namespace c.config.Subsystem ≠ c.m.up ∧
        d.GetPrometheusDescription c.config.Namespace c.config.Subsystem ≠ c.m.scrapeDuration)
    (hsup : s.m.up.err = none) (hsduration : s.m.scrapeDuration.err = none)
    (hsdistinct : s.m.up ≠ s.m.scrapeDuration)
    (hsdefs : ∀ d ∈ s.config.Metrics, d.Enabled = true →
      (d.GetPrometheusDescription s.config.Namespace s.config.Subsystem).err = none ∧
        d.Labels.length = 1 ∧
        d.GetPrometheusDescription s.config.Namespace s.config.Subsystem ≠ s.m.up ∧
        d.GetPrometheusDescription s.config.Namespace s.config.Subsystem ≠
          s.m.scrapeDuration) :
    (∃ (defs : List (Metric F)) (ok : Bool) (label : String),
      (c.Collect o elapsed rangeOrder).ch =
          defs ++ { desc := c.m.up, value := if ok = true then 1 else 0, labelValues := [label] } ::
            (if ok = true then
              [{ desc := c.m.scrapeDuration, value := elapsed, labelValues := [label] }]
            else []) ∧
        (∀ m ∈ defs, ∃ d ∈ c.config.Metrics,
          m.desc = d.GetPrometheusDescription c.config.Namespace c.config.Subsystem) ∧
        (c.Collect o elapsed rangeOrder).ch.countP (fun m => decide (m.desc = c.m.up)) = 1 ∧
        (c.Collect o elapsed rangeOrder).ch.countP
            (fun m => decide (m.desc = c.m.scrapeDuration)) = (if ok = true then 1 else 0) ∧
        (ok = true ↔
          ∀ call ∈ (c.Collect o elapsed rangeOrder).calls,
            call.succeeded (some lm) client = true) ∧
        (c.Collect o elapsed rangeOrder).completed = true) ∧
    (∃ (defs : List (Metric F)) (ok : Bool) (label : String),
      (s.Collect elapsed).ch =
          defs ++ { desc := s.m.up, value := if ok = true then 1 else 0, labelValues := [label] } ::
            (if ok = true then
              [{ desc := s.m.scrapeDuration, value := elapsed, labelValues := [label] }]
            else []) ∧
        (∀ m ∈ defs, ∃ d ∈ s.config.Metrics,
          m.desc = d.GetPrometheusDescription s.config.Namespace s.config.Subsystem) ∧
        (s.Collect elapsed).ch.countP (fun m => decide (m.desc = s.m.up)) = 1 ∧
        (s.Collect elapsed).ch.countP
            (fun m => decide (m.desc = s.m.scrapeDuration)) = (if ok = true then 1 else 0) ∧
        (ok = true ↔
          ∀ call ∈ (s.Collect elapsed).calls, call.succeeded none sclient = true) ∧
        (s.Collect elapsed).completed = true) := by
  constructor
  · obtain ⟨defs, ok, label, hch, hdesc, hok, hdone⟩ :=
      index_collect_shape o client config lm elapsed rangeOrder c hc hup hduration
        (fun d hd => (hdefs d hd).1)
    have hother : ∀ m ∈ defs, m.desc ≠ c.m.up ∧ m.desc ≠ c.m.scrapeDuration := by
      intro m hm
      obtain ⟨d, hd, hmd⟩ := hdesc m hm
      rw [hmd]
      exact (hdefs d hd).2
    have hcount := countP_liveness defs c.m.up c.m.scrapeDuration
      (if ok = true then 1 else 0) elapsed label ok hother hdistinct
    refine ⟨defs, ok, label, hch, hdesc, ?_, ?_, hok, hdone⟩
    · rw [hch]; exact hcount.1
    · rw [hch]; exact hcount.2
  · obtain ⟨defs, ok, label, hch, hdesc, hok, hdone⟩ :=
      fts_collect_shape o sclient sconfig elapsed s hs hsup hsduration
        (fun d hd hen => ⟨(hsdefs d hd hen).1, (hsdefs d hd hen).2.1⟩)
    have hother : ∀ m ∈ defs, m.desc ≠ s.m.up ∧ m.desc ≠ s.m.scrapeDuration := by
      intro m hm
      obtain ⟨d, hd, hen, hmd⟩ := hdesc m hm
      rw [hmd]
      exact (hsdefs d hd hen).2.2
    have hcount := countP_liveness defs s.m.up s.m.scrapeDuration
      (if ok = true then 1 else 0) elapsed label ok hother hsdistinct
    refine ⟨defs, ok, label, hch, ?_, ?_, ?_, hok, hdone⟩
    · intro m hm
      obtain ⟨d, hd, _, hmd⟩ := hdesc m hm
      exact ⟨d, hd, hmd⟩
    · rw [hch]; exact hcount.1
    · rw [hch]; exact hcount.2

/-- Witness of C3 (amended) on the index configuration with three definitions
and the search configuration with one label per enabled definition: in the cycle
of the search collector exactly one metric carries the liveness descriptor. -/
theorem collect_liveness_witness :
    ∃ (defs : List (Metric Int)) (ok : Bool) (label : String),
      ((NewFTSCollector exampleObjects exampleFtsClient (some exampleFtsConfig)).Collect 3).ch =
          defs ++
            { desc := { fqName := "cb_fts_up", help := "Couchbase cluster API is responding",
                        variableLabels := ["cluster"] },
              value := if ok = true then 1 else 0, labelValues := [label] } ::
            (if ok = true then
              [{ desc := { fqName := "cb_fts_scrape_duration_seconds",
                           help := "Scrape duration in seconds", variableLabels := ["cluster"] },
                 value := 3, labelValues := [label] }]
            else []) ∧
        (∀ m ∈ defs, ∃ d ∈ exampleFtsConfig.Metrics,
          m.desc = d.GetPrometheusDescription "cb" "fts") ∧
        ((NewFTSCollector exampleObjects exampleFtsClient (some exampleFtsConfig)).Collect
            3).ch.countP
          (fun m => decide (m.desc =
            { fqName := "cb_fts_up", help := "Couchbase cluster API is responding",
              variableLabels := ["cluster"] })) = 1 ∧
        ((NewFTSCollector exampleObjects exampleFtsClient (some exampleFtsConfig)).Collect
            3).ch.countP
          (fun m => decide (m.desc =
            { fqName := "cb_fts_scrape_duration_seconds",
              help := "Scrape duration in seconds", variableLabels := ["cluster"] })) =
          (if ok = true then 1 else 0) ∧
        (ok = true ↔
          ∀ call ∈ ((NewFTSCollector exampleObjects exampleFtsClient
              (some exampleFtsConfig)).Collect 3).calls,
            call.succeeded none exampleFtsClient = true) ∧
        ((NewFTSCollector exampleObjects exampleFtsClient
          (some exampleFtsConfig)).Collect 3).completed = true :=
  (collect_liveness exampleObjects exampleClient exampleFtsClient (some exampleConfig)
    (some exampleFtsConfig) exampleLabels 3 (fun _ s => s) _ _ rfl rfl
    (by decide) (by decide) (by decide) (by decide)
    (by decide) (by decide) (by decide) (by decide)).2

/-! Index collector, service present -/

/-- C6 fails as stated: on a node with the index service, every checked call
succeeding, with an enabled definition of empty name before the enabled
keyspace-scoped definition num_docs, the construction of the aggregate sample of
the first definition panics (its descriptor carries an error), and the channel
receives no sample for num_docs although the breakdown holds a numeric field
num_docs for two indexes. -/
theorem collect_fan_out_panics_on_earlier_definition :
    exampleLabels.GetBasicMetricContext = .ok { ClusterName := "c1", Scope := [] } ∧
      exampleClient.IndexStats = .ok exampleBreakdown ∧
      (exampleConfigUnnamedFirst.Metrics.map
          (fun d => (d.Name, d.Enabled, contains d.Labels "keyspace",
            (d.GetPrometheusDescription "cb" "index").err))) =
        [("", true, false, some DescError.invalidMetricName),
         ("num_docs", true, true, none)] ∧
      (exampleBreakdown.filterMap (fun entry =>
          if entry.1 = "indexer" then none else entry.2.float64 "num_docs")) = [7, 4] ∧
      ((NewIndexCollector exampleObjects exampleClient (some exampleConfigUnnamedFirst)
          exampleLabels).Collect exampleObjects 3 (fun _ s => s)).calls =
        [Call.GetBasicMetricContext, Call.Index, Call.GetCurrentNode, Call.IndexStats] ∧
      ((NewIndexCollector exampleObjects exampleClient (some exampleConfigUnnamedFirst)
          exampleLabels).Collect exampleObjects 3 (fun _ s => s)).ch = [] ∧
      ((NewIndexCollector exampleObjects exampleClient (some exampleConfigUnnamedFirst)
          exampleLabels).Collect exampleObjects 3 (fun _ s => s)).completed = false :=
  ⟨rfl, rfl, by decide, by decide, by decide, by decide, by decide⟩

/-- C6, amended. Index collector, service present (GetBasicMetricContext, Index,
GetCurrentNode and IndexStats succeed, index is among the services of the node),
with a valid descriptor for every definition of the configuration, each loop
over the breakdown visiting every entry once in some order: the channel receives
the sends of the definition iterations in configuration order, followed only by
what the closing of the cycle sends (liveness 1 and the duration, when their
descriptors are valid, and Collect then returns); for every enabled definition d
that declares the keyspace label, the samples sent at its iteration are, as a
multiset, one per entry of the breakdown whose key k is not "indexer" and whose
field d.Name holds a float64, with that number as value and the labels
GetLabelValues(d.Labels, GetMetricContext("", k)); the key "indexer" and a key
whose field is missing or not a float64 contribute no sample. -/
theorem collect_fan_out {F : Type} [Zero F] [One F] (o : Objects) (client : CbClient F)
    (config : Option CollectorConfig) (lm : CbLabelManager) (elapsed : F)
    (rangeOrder : Nat → Breakdown F → Breakdown F) (c : indexCollector F)
    (ctx : MetricContext) (indexStats : Stats F) (currentNode : Node) (stats : Breakdown F)
    (hc : c = NewIndexCollector o client config lm)
    (hctx : lm.GetBasicMetricContext = .ok ctx) (hindex : client.Index = .ok indexStats)
    (hnode : client.GetCurrentNode = .ok currentNode)
    (hpresent : contains currentNode.Services "index" = true)
    (hstats : client.IndexStats = .ok stats)
    (horder : ∀ i, (rangeOrder i stats).Perm stats)
    (hdefs : ∀ d ∈ c.config.Metrics,
      (d.GetPrometheusDescription c.config.Namespace c.config.Subsystem).err = none) :
    (∃ tail,
      (c.Collect o elapsed rangeOrder).ch =
        (indexPresentLoop o c.config lm indexStats stats rangeOrder 0 ctx
            c.config.Metrics).2.flatten.map Send.toMetric ++ tail ∧
      (c.m.up.err = none → c.m.scrapeDuration.err = none →
        (∃ label,
          tail = [{ desc := c.m.up, value := 1, labelValues := [label] },
                  { desc := c.m.scrapeDuration, value := elapsed, labelValues := [label] }]) ∧
          (c.Collect o elapsed rangeOrder).completed = true)) ∧
      (∀ (j : Nat) (d : MetricInfo), c.config.Metrics[j]? = some d → d.Enabled = true →
        contains d.Labels o.KeyspaceLabel = true →
        ∃ block,
          (indexPresentLoop o c.config lm indexStats stats rangeOrder 0 ctx
              c.config.Metrics).2[j]? = some block ∧
            (↑(block.map Send.toMetric) : Multiset (Metric F)) =
              ↑(stats.filterMap (fun entry =>
                if entry.1 = "indexer" then none
                else (entry.2.float64 d.Name).map (fun val =>
                  ({ desc := d.GetPrometheusDescription c.config.Namespace c.config.Subsystem
                     value := val
                     labelValues :=
                       lm.GetLabelValues d.Labels (lm.GetMetricContext "" entry.1).1 } :
                    Metric F))))) := by
  have hlm : c.m.labelManger = some lm := by rw [hc]; rfl
  have hcl : c.m.client = client := by rw [hc]; rfl
  have hupLabels : c.m.up.variableLabels.length = 1 := by rw [hc]; rfl
  have hdurLabels : c.m.scrapeDuration.variableLabels.length = 1 := by rw [hc]; rfl
  have hcollect : c.Collect o elapsed rangeOrder =
      Outcome.of
        [Call.GetBasicMetricContext, Call.Index, Call.GetCurrentNode, Call.IndexStats]
        ((indexPresentLoop o c.config lm indexStats stats rangeOrder 0 ctx
            c.config.Metrics).2.flatten ++
          closing c.m elapsed
            (indexPresentLoop o c.config lm indexStats stats rangeOrder 0 ctx
              c.config.Metrics).1.ClusterName) := by
    simp [indexCollector.Collect, hlm, hcl, hctx, hindex, hnode, hpresent, hstats]
  have hsends := indexPresentLoop_fits o c.config lm indexStats stats rangeOrder
    c.config.Metrics 0 ctx hdefs
  refine ⟨⟨(deliver (closing c.m elapsed
      (indexPresentLoop o c.config lm indexStats stats rangeOrder 0 ctx
        c.config.Metrics).1.ClusterName)).1, ?_, ?_⟩, ?_⟩
  · rw [hcollect]
    simp only [Outcome.of, deliver_append_of_fits _ _ hsends]
  · intro hup hduration
    have hclosing := closing_fits c.m elapsed
      (indexPresentLoop o c.config lm indexStats stats rangeOrder 0 ctx
        c.config.Metrics).1.ClusterName hup hupLabels hduration hdurLabels
    refine ⟨⟨(indexPresentLoop o c.config lm indexStats stats rangeOrder 0 ctx
      c.config.Metrics).1.ClusterName, ?_⟩, ?_⟩
    · rw [deliver_of_fits _ hclosing]
      simp [closing, Send.toMetric]
    · rw [hcollect]
      simp only [Outcome.of, deliver_append_of_fits _ _ hsends, deliver_of_fits _ hclosing]
  · intro j d hd hen hks
    have helse : (d.Enabled && !contains d.Labels o.KeyspaceLabel) = false := by
      simp [hen, hks]
    refine ⟨_, indexPresentLoop_block o c.config lm indexStats stats rangeOrder
      c.config.Metrics 0 ctx j d hd helse, ?_⟩
    rw [Multiset.coe_eq_coe, List.map_filterMap]
    have hperm := (horder (0 + j)).filterMap (fun entry : String × Fields F =>
      Option.map Send.toMetric
        (if entry.1 = "indexer" then none
          else (entry.2.float64 d.Name).map (fun val =>
            ({ desc := d.GetPrometheusDescription c.config.Namespace c.config.Subsystem
               value := val
               labelValues :=
                 lm.GetLabelValues d.Labels (lm.GetMetricContext "" entry.1).1 } :
              Send F))))
    refine hperm.trans (List.Perm.of_eq ?_)
    congr 1
    funext entry
    by_cases hkey : entry.1 = "indexer"
    · simp [hkey]
    · cases hval : entry.2.float64 d.Name <;> simp [hkey, hval, Send.toMetric]

/-- Witness of C6 (amended) with every loop visiting the breakdown in reverse
order: the definition num_docs yields one sample for each of the two indexes and
none for the key indexer. -/
theorem collect_fan_out_witness :
    ∃ block,
      (indexPresentLoop exampleObjects exampleConfig exampleLabels exampleStats exampleBreakdown
          (fun _ s => s.reverse) 0 { ClusterName := "c1", Scope := [] }
          exampleConfig.Metrics).2[1]? = some block ∧
        (↑(block.map Send.toMetric) : Multiset (Metric Int)) =
          ↑([{ desc := { fqName := "cb_index_num_docs", help := "documents",
                         variableLabels := ["cluster", "keyspace"] },
               value := 7, labelValues := ["c1", "travel:idx"] },
             { desc := { fqName := "cb_index_num_docs", help := "documents",
                         variableLabels := ["cluster", "keyspace"] },
               value := 4, labelValues := ["", ""] }] : List (Metric Int)) :=
  (collect_fan_out exampleObjects exampleClient (some exampleConfig) exampleLabels 3
    (fun _ s => s.reverse) _ { ClusterName := "c1", Scope := [] } exampleStats
    { Services := ["kv", "index"] } exampleBreakdown rfl rfl rfl rfl (by decide) rfl
    (fun _ => List.reverse_perm _) (by decide)).2 1
    { Name := "num_docs", Enabled := true, Labels := ["cluster", "keyspace"],
      Help := "documents" } rfl rfl (by decide)

/-- C1, evaluated at the failing input. The only definition of the configuration
is disabled; the node runs the index service and the breakdown holds a numeric
field num_requests for the index travel:idx. Describe sends no descriptor for
the definition, yet Collect sends a sample for it: a disabled definition takes the
else branch of the loop, the per-resource fan-out. -/
theorem index_collect_emits_disabled_definition :
    exampleConfigDisabled.Metrics.all (fun d => !d.Enabled) = true ∧
      (NewIndexCollector exampleObjects exampleClient (some exampleConfigDisabled)
          exampleLabels).Describe.length = 2 ∧
      ((NewIndexCollector exampleObjects exampleClient (some exampleConfigDisabled)
          exampleLabels).Collect exampleObjects 3 (fun _ s => s)).ch =
        [{ desc := { fqName := "cb_index_num_requests", help := "requests",
                     variableLabels := ["cluster", "keyspace"] },
           value := 12, labelValues := ["c1", "travel:idx"] },
         { desc := { fqName := "cb_index_up", help := "Couchbase cluster API is responding",
                     variableLabels := ["cluster"] },
           value := 1, labelValues := [""] },
         { desc := { fqName := "cb_index_scrape_duration_seconds",
                     help := "Scrape duration in seconds", variableLabels := ["cluster"] },
           value := 3, labelValues := [""] }] := by
  decide

/-- C2, evaluated at the failing input. The cluster-wide context names the
cluster c1; the fan-out of the first definition assigns the variable ctx at
every key, last at beer:idx, for which GetMetricContext returns the zero context
and an error. The aggregate sample of the following definition op_count and the
closing liveness and duration metrics are labelled from that context (the empty
cluster name), not from the cluster-wide one. -/
theorem index_collect_labels_from_overwritten_context :
    exampleLabels.GetBasicMetricContext = .ok { ClusterName := "c1", Scope := [] } ∧
      exampleLabels.GetLabelValues ["cluster"] { ClusterName := "c1", Scope := [] } = ["c1"] ∧
      ((NewIndexCollector exampleObjects exampleClient (some exampleConfigKeyspaceFirst)
          exampleLabels).Collect exampleObjects 3 (fun _ s => s)).ch =
        [{ desc := { fqName := "cb_index_num_docs", help := "documents",
                     variableLabels := ["cluster", "keyspace"] },
           value := 7, labelValues := ["c1", "travel:idx"] },
         { desc := { fqName := "cb_index_num_docs", help := "documents",
                     variableLabels := ["cluster", "keyspace"] },
           value := 4, labelValues := ["", ""] },
         { desc := { fqName := "cb_index_op_count", help := "operations",
                     variableLabels := ["cluster"] },
           value := 5, labelValues := [""] },
         { desc := { fqName := "cb_index_up", help := "Couchbase cluster API is responding",
                     variableLabels := ["cluster"] },
           value := 1, labelValues := [""] },
         { desc := { fqName := "cb_index_scrape_duration_seconds",
                     help := "Scrape duration in seconds", variableLabels := ["cluster"] },
           value := 3, labelValues := [""] }] :=
  ⟨rfl, by decide, by decide⟩

end CouchbaseExporter
